import Mathlib

/-!
Shallow embedding of the asteroids arena-survival simulation core
(source: src/main.rs of the repository under verification).

Embedding conventions:
* The source's `f32` arithmetic is embedded as exact rational arithmetic (`ℚ`).
* Transcendental / irrational primitives of the source (`sqrt`, `cos`, `sin`,
  `atan2`, `to_radians`, `to_degrees`, the constant `TAU`) have no exact
  rational counterpart; they are carried as uninterpreted function fields of an
  `Env` parameter, so every theorem below is quantified over all possible
  interpretations of these primitives.
* The global random generator `gen_range(lo, hi)` is embedded as the `Env`
  field `rand : ℕ → ℚ → ℚ → ℚ`, applied to an explicit draw index that is
  threaded through every computation exactly in source evaluation order.
* The ambient `screen_width()` / `screen_height()` queries are the `Env`
  fields `screenW` / `screenH`.
* Rust `u32` / `usize` counters are embedded as `ℕ`; the guarded decrements
  in the source never underflow, which the embedding mirrors with truncated
  subtraction behind the same guards.
* Rust `HashSet` removal-id scratch sets are embedded as `List ℕ` used only
  through membership, which is all the source uses them for.
* Input polling `is_key_down(..)` is embedded as a record of booleans supplied
  to `Game.tick`.
-/

set_option maxRecDepth 8000

/-- 2D vector, embedding macroquad's `Vec2` as used by src/main.rs. -/
structure Vec2 where
  x : ℚ
  y : ℚ
deriving DecidableEq, Repr

instance : Inhabited Vec2 := ⟨⟨0, 0⟩⟩

instance : Add Vec2 := ⟨fun a b => ⟨a.x + b.x, a.y + b.y⟩⟩

instance : Sub Vec2 := ⟨fun a b => ⟨a.x - b.x, a.y - b.y⟩⟩

instance : SMul ℚ Vec2 := ⟨fun c v => ⟨c * v.x, c * v.y⟩⟩

instance : HDiv Vec2 ℚ Vec2 := ⟨fun v c => ⟨v.x / c, v.y / c⟩⟩

/-- Dot product of two vectors (`Vec2::dot` in macroquad). -/
def Vec2.dot (a b : Vec2) : ℚ := a.x * b.x + a.y * b.y

/-- Interpretation environment: the ambient screen, the transcendental float
primitives, and the random generator stream of the source, all left abstract. -/
structure Env where
  screenW : ℚ
  screenH : ℚ
  sqrt : ℚ → ℚ
  cos : ℚ → ℚ
  sin : ℚ → ℚ
  atan2 : ℚ → ℚ → ℚ
  toRadians : ℚ → ℚ
  toDegrees : ℚ → ℚ
  tau : ℚ
  rand : ℕ → ℚ → ℚ → ℚ

/-- Squared Euclidean distance; the radicand of `distance` at src/main.rs:12. -/
def distSq (p1 p2 : Vec2) : ℚ := (p2.x - p1.x) ^ 2 + (p2.y - p1.y) ^ 2

/-- Embedding of `distance` (src/main.rs:12-14): the square root of the sum of
squared coordinate differences, with `sqrt` interpreted by the environment. -/
def distance (env : Env) (p1 p2 : Vec2) : ℚ := env.sqrt (distSq p1 p2)

/-- Embedding of `Ship` (src/main.rs:16-23). -/
structure Ship where
  position : Vec2
  velocity : Vec2
  health : ℕ
  iframes : ℕ
  rotation : ℚ
deriving DecidableEq, Repr

/-- Embedding of `Ship::new` (src/main.rs:25-34). -/
def Ship.new (env : Env) (x y : ℚ) : Ship :=
  { position := ⟨x, y⟩
    velocity := ⟨0, 0⟩
    health := 5
    iframes := 0
    rotation := env.toRadians 270 }

/-- Embedding of `Ship::take_hit` (src/main.rs:46-51). -/
def Ship.take_hit (s : Ship) : Ship :=
  if s.iframes = 0 ∧ 0 < s.health then
    { s with health := s.health - 1, iframes := 120 }
  else s

/-- Embedding of `Ship::vertices` (src/main.rs:53-78): the three hull points,
rotated about their centroid by the ship's facing angle. -/
def Ship.vertices (env : Env) (s : Ship) : List Vec2 :=
  let x1 := s.position.x
  let y1 := s.position.y
  let x2 := s.position.x + 45
  let y2 := s.position.y - 15
  let x3 := s.position.x
  let y3 := s.position.y - 30
  let center : Vec2 := ⟨(x1 + x2 + x3) / 3, (y1 + y2 + y3) / 3⟩
  [(⟨x1, y1⟩ : Vec2), ⟨x2, y2⟩, ⟨x3, y3⟩].map fun vertex =>
    let x := vertex.x - center.x
    let y := vertex.y - center.y
    let rotated : Vec2 :=
      ⟨x * env.cos s.rotation - y * env.sin s.rotation,
       x * env.sin s.rotation + y * env.cos s.rotation⟩
    rotated + center

/-- Embedding of `Laser` (src/main.rs:81-86). -/
structure Laser where
  id : ℕ
  position : Vec2
  velocity : Vec2
deriving DecidableEq, Repr

/-- Embedding of `Laser::new` (src/main.rs:88-94). -/
def Laser.new (x_pos y_pos x_vel y_vel : ℚ) (id : ℕ) : Laser :=
  { id, position := ⟨x_pos, y_pos⟩, velocity := ⟨x_vel, y_vel⟩ }

/-- Embedding of `Laser::tick` (src/main.rs:109-112). -/
def Laser.tick (l : Laser) (frame_time : ℚ) : Laser :=
  { l with
    position := ⟨l.position.x + l.velocity.x * frame_time,
                 l.position.y + l.velocity.y * frame_time⟩ }

/-- Embedding of `Asteroid` (src/main.rs:115-125). -/
structure Asteroid where
  id : ℕ
  position : Vec2
  velocity : Vec2
  radius : ℚ
  rotation : ℚ
  health : ℕ
  num_sides : ℕ
  ignore_collision_with : Option ℕ
deriving DecidableEq, Repr

/-- Embedding of `Asteroid::new` (src/main.rs:127-138). -/
def Asteroid.new (x_pos y_pos x_vel y_vel radius : ℚ) (id : ℕ) : Asteroid :=
  { id
    position := ⟨x_pos, y_pos⟩
    velocity := ⟨x_vel, y_vel⟩
    radius
    rotation := 0
    health := 1
    num_sides := 8
    ignore_collision_with := none }

/-- Embedding of `Asteroid::new_split` (src/main.rs:140-159). -/
def Asteroid.new_split (x_pos y_pos x_vel y_vel radius : ℚ) (id ignore_id : ℕ) :
    Asteroid :=
  { id
    position := ⟨x_pos, y_pos⟩
    velocity := ⟨x_vel, y_vel⟩
    radius
    rotation := 0
    health := 1
    num_sides := 8
    ignore_collision_with := some ignore_id }

/-- Embedding of `Asteroid::tick` (src/main.rs:173-177). -/
def Asteroid.tick (a : Asteroid) (frame_time : ℚ) : Asteroid :=
  { a with
    position := ⟨a.position.x + a.velocity.x * frame_time,
                 a.position.y + a.velocity.y * frame_time⟩
    rotation := a.rotation + 30 * frame_time }

/-- Embedding of `Asteroid::take_hit` (src/main.rs:179-184): health is
decremented only behind the `health > 0` guard, so it saturates at zero. -/
def Asteroid.take_hit (a : Asteroid) : Asteroid :=
  if 0 < a.health then { a with health := a.health - 1 } else a

/-- Embedding of `Particle` (src/main.rs:186-192). -/
structure Particle where
  position : Vec2
  velocity : Vec2
  lifetime : ℚ
  size : ℚ
deriving DecidableEq, Repr

/-- Embedding of `Particle::new` (src/main.rs:195-203); consumes two random
draws (the direction angle and the size) starting at draw index `k`, and
returns the next free draw index. -/
def Particle.new (env : Env) (k : ℕ) (x y speed : ℚ) : Particle × ℕ :=
  let angle := env.rand k 0 env.tau
  ({ position := ⟨x, y⟩
     velocity := ⟨speed * env.cos angle, speed * env.sin angle⟩
     lifetime := 1
     size := env.rand (k + 1) 2 6 }, k + 2)

/-- Embedding of `Particle::tick` (src/main.rs:205-209). -/
def Particle.tick (p : Particle) (frame_time : ℚ) : Particle :=
  { p with
    position := p.position + frame_time • p.velocity
    lifetime := p.lifetime - frame_time * 2
    velocity := (49 / 50 : ℚ) • p.velocity }

/-- Embedding of the repeated source pattern
`for _ in 0..n (particles.push(Particle::new(x, y, gen_range(lo, hi))))`
(src/main.rs:390-396, 402-409, 495-503, 525-532): each iteration draws the
speed and then builds a particle from two further draws. -/
def pushParticles (env : Env) (x y lo hi : ℚ) :
    ℕ → List Particle × ℕ → List Particle × ℕ
  | 0, st => st
  | n + 1, (ps, k) =>
    let speed := env.rand k lo hi
    let pk := Particle.new env (k + 1) x y speed
    pushParticles env x y lo hi n (ps ++ [pk.1], pk.2)

/-- Keyboard state consumed by `Game::tick` through `is_key_down`. -/
structure Input where
  w : Bool
  s : Bool
  a : Bool
  d : Bool
  space : Bool
deriving DecidableEq, Repr

/-- Embedding of `Game` (src/main.rs:222-237). -/
structure Game where
  width : ℚ
  height : ℚ
  center : Vec2
  player : Ship
  asteroids : List Asteroid
  asteroid_counter : ℕ
  max_asteroids : ℕ
  lasers : List Laser
  laser_counter : ℕ
  laser_cooldown : ℚ
  laser_cooldown_remaining : ℚ
  score : ℕ
  particles : List Particle
  death_timer : ℚ
deriving DecidableEq, Repr

/-- The four screen boundaries of the spawner (src/main.rs:631-777): the
source repeats one spawn loop for the left, top, right and bottom edge. -/
inductive Boundary
  | left
  | top
  | right
  | bottom
deriving DecidableEq, Repr

/-- Spawn position on a boundary given the drawn edge coordinate
(src/main.rs:639, 676, 713, 750). -/
def boundaryPos (b : Boundary) (width height coord : ℚ) : Vec2 :=
  match b with
  | .left => ⟨0, coord⟩
  | .top => ⟨coord, 0⟩
  | .right => ⟨width, coord⟩
  | .bottom => ⟨coord, height⟩

/-- Range of the edge-coordinate draw for a boundary
(src/main.rs:638, 675, 712, 749). -/
def boundaryCoordRange (b : Boundary) (width height radius : ℚ) : ℚ × ℚ :=
  match b with
  | .left => (radius, height - radius)
  | .top => (radius, width - radius)
  | .right => (radius, height - radius)
  | .bottom => (radius, width - radius)

/-- The `delta_x` / `delta_y` aimed toward the arena center for a boundary
(src/main.rs:642-643, 679-680, 716-717, 753-754). -/
def boundaryDelta (b : Boundary) (center : Vec2) (width height coord : ℚ) :
    ℚ × ℚ :=
  match b with
  | .left => (center.x, center.y - coord)
  | .top => (center.x - coord, center.y)
  | .right => (center.x - width, center.y - coord)
  | .bottom => (center.x - coord, center.y - height)

/-- Embedding of the `check_overlap` closure of `Game::generate_asteroids`
(src/main.rs:621-629). -/
def checkOverlap (env : Env) (new_pos : Vec2) (new_radius : ℚ)
    (existing : List Asteroid) : Bool :=
  existing.any fun asteroid =>
    decide (distance env new_pos asteroid.position
      < new_radius + asteroid.radius + 10)

/-- Spawner state threaded through `Game::generate_asteroids`: the asteroid
collection, the asteroid id counter, and the next random draw index. -/
def GenState : Type := List Asteroid × ℕ × ℕ

/-- Embedding of one bounded-retry placement attempt loop of the spawner
(src/main.rs:636-665 and its three per-boundary copies): up to `fuel`
attempts, each drawing a radius and an edge coordinate; the first placement
that does not overlap an existing asteroid allocates a fresh id and appends
the asteroid, a failure retries, exhaustion spawns nothing. -/
def spawnTry (env : Env) (b : Boundary) (width height : ℚ) (center : Vec2) :
    ℕ → GenState → GenState
  | 0, st => st
  | fuel + 1, (asts, c, k) =>
    let radius := env.rand k 10 100
    let range := boundaryCoordRange b width height radius
    let coord := env.rand (k + 1) range.1 range.2
    let position := boundaryPos b width height coord
    if checkOverlap env position radius asts then
      spawnTry env b width height center fuel (asts, c, k + 2)
    else
      let delta := boundaryDelta b center width height coord
      let angle_toward_center := env.toDegrees (env.atan2 delta.2 delta.1)
      let angle := env.toRadians (angle_toward_center + env.rand (k + 2) 0 30)
      let x_vel := 100 * env.cos angle
      let y_vel := 100 * env.sin angle
      (asts ++ [Asteroid.new position.x position.y x_vel y_vel radius (c + 1)],
        c + 1, k + 3)

/-- Embedding of one boundary's `for _ in 0..asteroids_per_boundary` spawn
loop (src/main.rs:632-666 and its three copies), each slot running the
10-attempt placement loop. -/
def spawnSlots (env : Env) (b : Boundary) (width height : ℚ) (center : Vec2) :
    ℕ → GenState → GenState
  | 0, st => st
  | n + 1, st =>
    spawnSlots env b width height center n
      (spawnTry env b width height center 10 st)

/-- Core of `Game::generate_asteroids` (src/main.rs:608-778): the deficit
below `max_asteroids` is computed once, split evenly across the four
boundaries, and each boundary spawns its share. -/
def genCore (env : Env) (width height : ℚ) (center : Vec2)
    (max_asteroids : ℕ) (st : GenState) : GenState :=
  let num_asteroids := max_asteroids - min st.1.length max_asteroids
  let asteroids_per_boundary := num_asteroids / 4
  let st1 := spawnSlots env .left width height center asteroids_per_boundary st
  let st2 := spawnSlots env .top width height center asteroids_per_boundary st1
  let st3 := spawnSlots env .right width height center asteroids_per_boundary st2
  spawnSlots env .bottom width height center asteroids_per_boundary st3

/-- Embedding of `Game::generate_asteroids` (src/main.rs:608-778) at the
session level; only the asteroid collection and the asteroid id counter are
mutated. -/
def Game.generate_asteroids (env : Env) (gk : Game × ℕ) : Game × ℕ :=
  let st := genCore env gk.1.width gk.1.height gk.1.center gk.1.max_asteroids
    (gk.1.asteroids, gk.1.asteroid_counter, gk.2)
  ({ gk.1 with asteroids := st.1, asteroid_counter := st.2.1 }, st.2.2)

/-- Embedding of `Game::new` (src/main.rs:239-262). -/
def Game.new (env : Env) (k : ℕ) : Game × ℕ :=
  let width := env.screenW
  let height := env.screenH
  let center : Vec2 := ⟨width / 2, height / 2⟩
  Game.generate_asteroids env
    ({ width
       height
       center
       player := Ship.new env center.x center.y
       asteroids := []
       asteroid_counter := 0
       max_asteroids := 20
       lasers := []
       laser_counter := 0
       laser_cooldown := 1 / 5
       laser_cooldown_remaining := 0
       score := 0
       particles := []
       death_timer := 0 }, k)

/-- Embedding of `Game::reset` (src/main.rs:264-276): the asteroid collection
is emptied and regenerated, lasers and particles are cleared, the ship, score
and death timer restart; the dimension fields, the id counters and the laser
cooldown state are not written. -/
def Game.reset (env : Env) (gk : Game × ℕ) : Game × ℕ :=
  let width := env.screenW
  let height := env.screenH
  let center : Vec2 := ⟨width / 2, height / 2⟩
  let g1k := Game.generate_asteroids env ({ gk.1 with asteroids := [] }, gk.2)
  ({ g1k.1 with
      lasers := []
      player := Ship.new env center.x center.y
      score := 0
      particles := []
      death_timer := 0 }, g1k.2)

/-- Embedding of the input-driven thrust, rotation and position-clamp block of
`Game::tick` (src/main.rs:302-341). -/
def Game.moveShip (env : Env) (input : Input) (frame_time : ℚ) (g : Game) :
    Game :=
  let rotation_degrees : ℚ := 250 * frame_time
  let thrust : ℚ := 5 * frame_time
  let p0 := g.player
  let p1 :=
    if input.w then
      { p0 with velocity := ⟨p0.velocity.x + thrust * env.cos p0.rotation,
                             p0.velocity.y + thrust * env.sin p0.rotation⟩ }
    else if input.s then
      { p0 with velocity := ⟨p0.velocity.x - thrust * env.cos p0.rotation,
                             p0.velocity.y - thrust * env.sin p0.rotation⟩ }
    else p0
  let p2 :=
    if input.a then { p1 with rotation := p1.rotation - env.toRadians rotation_degrees }
    else if input.d then { p1 with rotation := p1.rotation + env.toRadians rotation_degrees }
    else p1
  let min_x : ℚ := 0
  let max_x : ℚ := g.width
  let min_y : ℚ := 0
  let max_y : ℚ := g.height
  let p3 := { p2 with position :=
    (⟨min max_x (max min_x (p2.position.x + p2.velocity.x)),
      min max_y (max min_y (p2.position.y + p2.velocity.y))⟩ : Vec2) }
  let p4 :=
    if p3.position.x = min_x ∨ p3.position.x = max_x then
      { p3 with velocity := ⟨0, p3.velocity.y⟩ }
    else p3
  let p5 :=
    if p4.position.y = min_y ∨ p4.position.y = max_y then
      { p4 with velocity := ⟨p4.velocity.x, 0⟩ }
    else p4
  { g with player := p5 }

/-- Embedding of the firing block of `Game::tick` (src/main.rs:343-357):
when the cooldown has elapsed and fire is held, allocate the next laser id,
spawn a laser at the ship's forward vertex with muzzle speed 500 along the
facing angle added to the ship velocity, and restart the cooldown. -/
def Game.fireStep (env : Env) (input : Input) (g : Game) : Game :=
  if g.laser_cooldown_remaining ≤ 0 ∧ input.space then
    let laser_counter := g.laser_counter + 1
    let front := (Ship.vertices env g.player).getD 1 default
    let fired_laser := Laser.new front.x front.y
      (g.player.velocity.x + 500 * env.cos g.player.rotation)
      (g.player.velocity.y + 500 * env.sin g.player.rotation)
      laser_counter
    { g with
        laser_counter
        lasers := g.lasers ++ [fired_laser]
        laser_cooldown_remaining := g.laser_cooldown }
  else g

/-- Embedding of the cooldown decrement and the invincibility-frame decrement
of `Game::tick` (src/main.rs:359-365). -/
def Game.cooldownStep (frame_time : ℚ) (g : Game) : Game :=
  let g1 :=
    if 0 < g.laser_cooldown_remaining then
      { g with laser_cooldown_remaining := g.laser_cooldown_remaining - frame_time }
    else g
  if 0 < g1.player.iframes then
    { g1 with player := { g1.player with iframes := g1.player.iframes - 1 } }
  else g1

/-- The asteroid-splitting block shared verbatim by the ship-collision split
(src/main.rs:411-436) and the laser-kill split (src/main.rs:534-559): two
children at the parent's position with half the radius, the parent velocity
perturbed by opposite displacements of speed 100 along the drawn angle, ids
`counter + 1` and `counter + 2`, each exempt from collisions with the other. -/
def mkSplitPair (env : Env) (a : Asteroid) (counter : ℕ) (angle : ℚ) :
    Asteroid × Asteroid :=
  let new_radius := a.radius / 2
  let split_speed : ℚ := 100
  let id1 := counter + 1
  let id2 := counter + 2
  (Asteroid.new_split a.position.x a.position.y
      (a.velocity.x + split_speed * env.cos angle)
      (a.velocity.y + split_speed * env.sin angle) new_radius id1 id2,
   Asteroid.new_split a.position.x a.position.y
      (a.velocity.x - split_speed * env.cos angle)
      (a.velocity.y - split_speed * env.sin angle) new_radius id2 id1)

/-- Whether an asteroid is outside the arena with its radius as margin
(src/main.rs:373-377). -/
def asteroidOffscreen (width height : ℚ) (a : Asteroid) : Bool :=
  decide (a.position.x > width + a.radius) ||
  decide (a.position.y > height + a.radius) ||
  decide (a.position.x < -a.radius) ||
  decide (a.position.y < -a.radius)

/-- State threaded through the first asteroid loop of `Game::tick`
(src/main.rs:367-442): the already-processed asteroids, the mutable player,
particles, death timer and id counter, the side buffer of collision-split
children, the removal-id set and the random draw index. -/
structure ShipPass where
  done : List Asteroid
  player : Ship
  particles : List Particle
  death_timer : ℚ
  counter : ℕ
  splits : List Asteroid
  removeA : List ℕ
  k : ℕ

/-- One iteration of the first asteroid loop of `Game::tick`
(src/main.rs:369-441): advance the asteroid, mark it when off-screen, and on
contact with any ship vertex damage the ship, mark the asteroid, emit the
death burst when the ship just died, and split large asteroids into the side
buffer. -/
def shipPassStep (env : Env) (frame_time width height : ℚ) (a : Asteroid)
    (st : ShipPass) : ShipPass :=
  let a1 := a.tick frame_time
  let st := { st with done := st.done ++ [a1] }
  let st :=
    if asteroidOffscreen width height a1 then
      { st with removeA := a1.id :: st.removeA }
    else st
  if (Ship.vertices env st.player).any
      (fun p => decide (distance env p a1.position < a1.radius)) then
    let previous_health := st.player.health
    let player := st.player.take_hit
    let st := { st with player, removeA := a1.id :: st.removeA }
    let st :=
      if 0 < previous_health ∧ player.health = 0 then
        let psk := pushParticles env player.position.x player.position.y
          200 400 30 (st.particles, st.k)
        { st with particles := psk.1, k := psk.2, death_timer := 1 }
      else st
    if 20 < a1.radius then
      let psk := pushParticles env a1.position.x a1.position.y
        100 300 15 (st.particles, st.k)
      let angle := env.rand psk.2 0 env.tau
      let pair := mkSplitPair env a1 st.counter angle
      { st with
          particles := psk.1
          k := psk.2 + 1
          splits := st.splits ++ [pair.1, pair.2]
          counter := st.counter + 2 }
    else st
  else st

/-- The first asteroid loop of `Game::tick` (src/main.rs:369-442), folded
over the asteroid collection in order. -/
def shipPassGo (env : Env) (frame_time width height : ℚ) :
    List Asteroid → ShipPass → ShipPass
  | [], st => st
  | a :: rest, st =>
    shipPassGo env frame_time width height rest
      (shipPassStep env frame_time width height a st)

/-- One pair-resolution step of the asteroid-to-asteroid collision loop of
`Game::tick` (src/main.rs:445-507) at indices `i < j`: clear stale
split-exemption flags once the pair has separated, and for a non-exempt
overlapping approaching pair apply the elastic impulse with squared radii as
masses, separate the pair along the normal, and emit a contact burst. -/
def bounceStep (env : Env) (i j : ℕ)
    (st : List Asteroid × List Particle × ℕ) :
    List Asteroid × List Particle × ℕ :=
  let asts := st.1
  let particles := st.2.1
  let k := st.2.2
  match asts.get? i, asts.get? j with
  | some ai, some aj =>
    let should_ignore := ai.ignore_collision_with = some aj.id ∨
      aj.ignore_collision_with = some ai.id
    let collision_distance := ai.radius + aj.radius
    let dist := distance env ai.position aj.position
    let asts :=
      if should_ignore ∧ collision_distance ≤ dist then
        let asts :=
          if ai.ignore_collision_with = some aj.id then
            asts.set i { ai with ignore_collision_with := none }
          else asts
        if aj.ignore_collision_with = some ai.id then
          asts.set j { aj with ignore_collision_with := none }
        else asts
      else asts
    if dist < collision_distance ∧ 0 < dist ∧ ¬should_ignore then
      let normal := (aj.position - ai.position) / dist
      let relative_velocity := aj.velocity - ai.velocity
      let velocity_along_normal := relative_velocity.dot normal
      if velocity_along_normal < 0 then
        let mass1 := ai.radius ^ 2
        let mass2 := aj.radius ^ 2
        let impulse := 2 * velocity_along_normal / (mass1 + mass2)
        let overlap := collision_distance - dist
        let separation := (overlap / 2 + 1) • normal
        let ai2 := { ai with
          velocity := ai.velocity + (impulse * mass2) • normal
          position := ai.position - separation }
        let aj2 := { aj with
          velocity := aj.velocity - (impulse * mass1) • normal
          position := aj.position + separation }
        let asts := (asts.set i ai2).set j aj2
        let contact_point := ai2.position + ai2.radius • normal
        let psk := pushParticles env contact_point.x contact_point.y
          50 150 3 (particles, k)
        (asts, psk.1, psk.2)
      else (asts, particles, k)
    else (asts, particles, k)
  | _, _ => (asts, particles, k)

/-- The pairwise asteroid-to-asteroid collision pass of `Game::tick`
(src/main.rs:444-507): every unordered index pair `i < j`, in loop order. -/
def bouncePass (env : Env) (asts : List Asteroid)
    (particles : List Particle) (k : ℕ) : List Asteroid × List Particle × ℕ :=
  let n := asts.length
  (List.range n).foldl
    (fun st i =>
      (List.range' (i + 1) (n - (i + 1))).foldl
        (fun st2 j => bounceStep env i j st2) st)
    (asts, particles, k)

/-- Scan of the asteroid collection by one advanced laser
(src/main.rs:516-567 inner loop): the first asteroid whose disc contains the
laser point takes one hit in place and the scan stops; the updated collection
and the struck asteroid (after the hit) are returned. -/
def laserHitScan (env : Env) (l : Laser) :
    List Asteroid → List Asteroid × Option Asteroid
  | [] => ([], none)
  | a :: rest =>
    if distance env l.position a.position < a.radius then
      let a1 := a.take_hit
      (a1 :: rest, some a1)
    else
      let res := laserHitScan env l rest
      (a :: res.1, res.2)

/-- State threaded through the laser loop of `Game::tick`
(src/main.rs:509-577): processed lasers, the mutable asteroid collection, the
removal-id sets for asteroids and lasers, the side buffer of laser-split
children, the asteroid id counter, the score, particles, and the draw index. -/
structure LaserPass where
  doneLasers : List Laser
  asts : List Asteroid
  removeA : List ℕ
  removeL : List ℕ
  splits : List Asteroid
  counter : ℕ
  score : ℕ
  particles : List Particle
  k : ℕ

/-- The laser-kill split block (src/main.rs:523-561): a struck asteroid whose
radius exceeds 20 emits a particle burst and pushes two split children into
the side buffer, advancing the asteroid id counter by two. -/
def laserKillSplit (env : Env) (a1 : Asteroid) (st : LaserPass) : LaserPass :=
  if 20 < a1.radius then
    let psk := pushParticles env a1.position.x a1.position.y
      100 300 15 (st.particles, st.k)
    let angle := env.rand psk.2 0 env.tau
    let pair := mkSplitPair env a1 st.counter angle
    { st with
        particles := psk.1
        k := psk.2 + 1
        splits := st.splits ++ [pair.1, pair.2]
        counter := st.counter + 2 }
  else st

/-- One iteration of the laser loop of `Game::tick` (src/main.rs:512-577):
advance the laser, give one hit to the first struck asteroid and mark the
laser; when the struck asteroid's health is zero mark it for removal, split
it when large, and increment the score by one; finally mark off-screen
lasers. -/
def laserPassStep (env : Env) (frame_time width height : ℚ) (l : Laser)
    (st : LaserPass) : LaserPass :=
  let l1 := l.tick frame_time
  let st := { st with doneLasers := st.doneLasers ++ [l1] }
  let st :=
    match laserHitScan env l1 st.asts with
    | (asts1, some a1) =>
      let st := { st with asts := asts1, removeL := l1.id :: st.removeL }
      if a1.health = 0 then
        let st := { st with removeA := a1.id :: st.removeA }
        let st := laserKillSplit env a1 st
        { st with score := st.score + 1 }
      else st
    | (asts1, none) => { st with asts := asts1 }
  if l1.position.x > width ∨ l1.position.y > height ∨
      l1.position.x < 0 ∨ l1.position.y < 0 then
    { st with removeL := l1.id :: st.removeL }
  else st

/-- The laser loop of `Game::tick` (src/main.rs:512-577), folded over the
laser collection in order. -/
def laserPassGo (env : Env) (frame_time width height : ℚ) :
    List Laser → LaserPass → LaserPass
  | [], st => st
  | l :: rest, st =>
    laserPassGo env frame_time width height rest
      (laserPassStep env frame_time width height l st)

/-- Embedding of `Game::tick` (src/main.rs:301-606): steer and clamp the
ship, fire, run the cooldown and invincibility timers, advance and collide
asteroids against the ship, resolve asteroid-to-asteroid bounces, advance
lasers and resolve laser hits, filter out removed entities, replenish the
asteroid population, merge the split side buffers, and age particles and the
death timer. -/
def Game.tick (env : Env) (input : Input) (frame_time : ℚ) (gk : Game × ℕ) :
    Game × ℕ :=
  let g := gk.1
  let g := Game.moveShip env input frame_time g
  let g := Game.fireStep env input g
  let g := Game.cooldownStep frame_time g
  let sp := shipPassGo env frame_time g.width g.height g.asteroids
    { done := []
      player := g.player
      particles := g.particles
      death_timer := g.death_timer
      counter := g.asteroid_counter
      splits := []
      removeA := []
      k := gk.2 }
  let g := { g with
    player := sp.player
    particles := sp.particles
    death_timer := sp.death_timer
    asteroid_counter := sp.counter
    asteroids := sp.done }
  let bp := bouncePass env g.asteroids g.particles sp.k
  let g := { g with asteroids := bp.1, particles := bp.2.1 }
  let lp := laserPassGo env frame_time g.width g.height g.lasers
    { doneLasers := []
      asts := g.asteroids
      removeA := sp.removeA
      removeL := []
      splits := []
      counter := g.asteroid_counter
      score := g.score
      particles := g.particles
      k := bp.2.2 }
  let g := { g with
    asteroids := lp.asts.filter fun a => decide (¬ a.id ∈ lp.removeA)
    lasers := lp.doneLasers.filter fun l => decide (¬ l.id ∈ lp.removeL)
    asteroid_counter := lp.counter
    score := lp.score
    particles := lp.particles }
  let gk2 := Game.generate_asteroids env (g, lp.k)
  let g := gk2.1
  let g := { g with asteroids := g.asteroids ++ lp.splits ++ sp.splits }
  let particlesAged := (g.particles.map fun p => p.tick frame_time).filter
    (fun p => decide (0 < p.lifetime))
  let g : Game := { g with particles := particlesAged }
  let g :=
    if 0 < g.death_timer then { g with death_timer := g.death_timer - frame_time }
    else g
  (g, gk2.2)

/-- Embedding of `Game::check_game_over` (src/main.rs:780-793), stripped of
its draw-call side effects: true when the ship is dead and the death timer
has elapsed, or when the score equals exactly 100. -/
def Game.check_game_over (g : Game) : Bool :=
  if g.player.health = 0 ∧ g.death_timer ≤ 0 then true
  else if g.score = 100 then true
  else false

/-- The ids of a list of asteroids, in order. -/
def asteroidIds (l : List Asteroid) : List ℕ := l.map fun a => a.id

/-- The ids of a list of lasers, in order. -/
def laserIds (l : List Laser) : List ℕ := l.map fun l => l.id

/-! Concrete interpretation environments, inputs and session states used by
the witnesses and counterexamples below. -/

/-- A benign interpretation: every square root is huge, so no disc test ever
reports contact. -/
def env0 : Env :=
  { screenW := 500, screenH := 500
    sqrt := fun _ => 1000
    cos := fun _ => 1
    sin := fun _ => 0
    atan2 := fun _ _ => 0
    toRadians := fun q => q
    toDegrees := fun q => q
    tau := 7
    rand := fun _ lo _ => lo }

/-- An interpretation whose square root is order-faithful at the radii used in
the concrete states below: radicands below 100 report distance 0, all others
distance 1000 (so a disc of radius 10 contains exactly the points of squared
distance below 100). -/
def env1 : Env :=
  { env0 with sqrt := fun q => if q < 100 then 0 else 1000 }

/-- An interpretation whose square root is exact at radicand 9, used by the
elastic-collision witness. -/
def envW : Env :=
  { env0 with sqrt := fun q => if q = 9 then 3 else 0 }

/-- No key held. -/
def input0 : Input :=
  { w := false, s := false, a := false, d := false, space := false }

/-- A session state with one live asteroid of health 1 and radius 10 overlapped
by two lasers at once, the ship far away, and replenishment disabled. -/
def gC1 : Game :=
  { width := 500
    height := 500
    center := ⟨250, 250⟩
    player := { position := ⟨400, 400⟩, velocity := ⟨0, 0⟩, health := 5,
                iframes := 0, rotation := 0 }
    asteroids := [{ id := 1, position := ⟨100, 100⟩, velocity := ⟨0, 0⟩,
                    radius := 10, rotation := 0, health := 1, num_sides := 8,
                    ignore_collision_with := none }]
    asteroid_counter := 1
    max_asteroids := 0
    lasers := [Laser.new 100 100 0 0 1, Laser.new 100 100 0 0 2]
    laser_counter := 2
    laser_cooldown := 1 / 5
    laser_cooldown_remaining := 1
    score := 0
    particles := []
    death_timer := 0 }

/-- A session state whose only asteroid carries id 1 while the asteroid id
counter is still 0, with a deficit of four below the asteroid cap. -/
def gC6 : Game :=
  { gC1 with
    player := { position := ⟨10, 10⟩, velocity := ⟨0, 0⟩, health := 5,
                iframes := 0, rotation := 0 }
    asteroids := [{ id := 1, position := ⟨250, 250⟩, velocity := ⟨0, 0⟩,
                    radius := 10, rotation := 0, health := 1, num_sides := 8,
                    ignore_collision_with := none }]
    asteroid_counter := 0
    max_asteroids := 5
    lasers := []
    laser_counter := 0 }

/-- An interchangeable filler asteroid used to build oversized collections. -/
def dummyAsteroid (i : ℕ) : Asteroid :=
  { id := i + 1, position := ⟨250, 250⟩, velocity := ⟨0, 0⟩, radius := 10,
    rotation := 0, health := 1, num_sides := 8, ignore_collision_with := none }

/-- A session state holding twenty-one asteroids, one more than its cap of
twenty (reachable in the source: a tick that kills a large asteroid removes
one and then appends two split children). -/
def gOver : Game :=
  { gC1 with
    asteroids := (List.range 21).map dummyAsteroid
    asteroid_counter := 30
    max_asteroids := 20
    lasers := []
    laser_counter := 0 }

/-- A session state with no live entities, a used laser id counter, and a
fire cooldown still partly elapsed. -/
def g5 : Game :=
  { gC1 with
    asteroids := []
    asteroid_counter := 7
    max_asteroids := 0
    lasers := []
    laser_counter := 5
    laser_cooldown_remaining := 3 / 20
    score := 44
    particles := []
    death_timer := 0 }

/-- A session state whose score has passed 100 with the ship alive. -/
def gScore101 : Game :=
  { g5 with score := 101 }

/-- An empty quiescent session state used by witnesses. -/
def gW : Game :=
  { g5 with laser_counter := 0, asteroid_counter := 0, score := 0 }

/-- A ship that is vulnerable (no invincibility frames, positive health). -/
def shipVuln : Ship :=
  { position := ⟨5, 5⟩, velocity := ⟨0, 0⟩, health := 5, iframes := 0,
    rotation := 0 }

/-- A ship inside its invincibility grace period. -/
def shipGrace : Ship :=
  { shipVuln with iframes := 3 }

/-- An asteroid already at health 0. -/
def aDead : Asteroid :=
  { id := 4, position := ⟨50, 50⟩, velocity := ⟨1, 2⟩, radius := 30,
    rotation := 0, health := 0, num_sides := 8, ignore_collision_with := none }

/-- A large asteroid (radius above the split threshold 20). -/
def aBig : Asteroid :=
  { id := 9, position := ⟨60, 80⟩, velocity := ⟨3, 4⟩, radius := 50,
    rotation := 0, health := 0, num_sides := 8, ignore_collision_with := none }

/-- First asteroid of the elastic-collision witness pair: radius 2 at the
origin moving right. -/
def aW1 : Asteroid :=
  { id := 1, position := ⟨0, 0⟩, velocity := ⟨1, 0⟩, radius := 2,
    rotation := 0, health := 1, num_sides := 8, ignore_collision_with := none }

/-- Second asteroid of the elastic-collision witness pair: radius 2 at
distance 3 moving left, overlapping and approaching the first. -/
def aW2 : Asteroid :=
  { id := 2, position := ⟨3, 0⟩, velocity := ⟨-1, 0⟩, radius := 2,
    rotation := 0, health := 1, num_sides := 8, ignore_collision_with := none }

/-! Helper lemmas. -/

theorem Asteroid.tick_id (a : Asteroid) (ft : ℚ) : (a.tick ft).id = a.id := rfl

theorem Asteroid.take_hit_id (a : Asteroid) : a.take_hit.id = a.id := by
  unfold Asteroid.take_hit
  split <;> rfl

theorem Asteroid.take_hit_health (a : Asteroid) :
    a.take_hit.health = a.health - 1 := by
  unfold Asteroid.take_hit
  split_ifs with h
  · rfl
  · omega

theorem Laser.tick_keeps_id (l : Laser) (ft : ℚ) : (l.tick ft).id = l.id := rfl

/-! Claim C3. -/

/-- Claim C3: for every ship state, take_hit decrements health by exactly 1
if and only if the invincibility counter is 0 and health is positive; on that
successful damage the invincibility counter is reset to the grace constant
120; when the invincibility counter is positive, health is unchanged. -/
theorem C3_ship_take_hit (s : Ship) :
    ((Ship.take_hit s).health < s.health ↔ s.iframes = 0 ∧ 0 < s.health)
    ∧ (s.iframes = 0 → 0 < s.health →
        (Ship.take_hit s).health = s.health - 1
          ∧ (Ship.take_hit s).iframes = 120)
    ∧ (0 < s.iframes → (Ship.take_hit s).health = s.health) := by
  unfold Ship.take_hit
  split_ifs with h
  · exact ⟨⟨fun _ => h, fun _ => show s.health - 1 < s.health by omega⟩,
      fun _ _ => ⟨rfl, rfl⟩, fun hi => absurd hi (by omega)⟩
  · exact ⟨⟨fun hlt => absurd hlt (lt_irrefl _), fun hc => absurd hc h⟩,
      fun h1 h2 => absurd ⟨h1, h2⟩ h, fun _ => rfl⟩

/-- Witness for C3 at two concrete ships: a vulnerable ship loses one health
and gains 120 invincibility frames; a ship in its grace period keeps its
health. -/
theorem C3_ship_take_hit_witness :
    ((Ship.take_hit shipVuln).health = 4 ∧ (Ship.take_hit shipVuln).iframes = 120)
    ∧ (Ship.take_hit shipGrace).health = 5 := by
  refine ⟨?_, (C3_ship_take_hit shipGrace).2.2 (by decide)⟩
  have h := (C3_ship_take_hit shipVuln).2.1 rfl (by decide)
  exact h

/-! Claim C10. -/

/-- Claim C10: Asteroid.take_hit saturates at zero health: the decrement sits
behind a positivity guard, so hitting an asteroid whose health is already 0
leaves it unchanged and no underflow is possible. -/
theorem C10_asteroid_take_hit_saturates (a : Asteroid) :
    (Asteroid.take_hit a).health = a.health - 1
    ∧ (a.health = 0 → Asteroid.take_hit a = a) := by
  refine ⟨Asteroid.take_hit_health a, fun h0 => ?_⟩
  unfold Asteroid.take_hit
  split_ifs with h
  · omega
  · rfl

/-- Witness for C10 at a concrete dead asteroid: a further hit is the
identity. -/
theorem C10_asteroid_take_hit_saturates_witness :
    Asteroid.take_hit aDead = aDead :=
  (C10_asteroid_take_hit_saturates aDead).2 rfl

/-! Claim C4. -/

/-- Claim C4 (amended): the terminal-state query returns true exactly when
the ship is dead with an elapsed death timer, or when the score is exactly
100; a score strictly above 100 with the ship alive is not reported. -/
theorem C4_check_game_over (g : Game) :
    Game.check_game_over g = true ↔
      (g.player.health = 0 ∧ g.death_timer ≤ 0) ∨ g.score = 100 := by
  unfold Game.check_game_over
  split_ifs with h1 h2
  · simp [h1]
  · simp [h2]
  · simp [h1, h2]

/-- Counterexample for C4 as stated: a session state whose score 101 has
reached (passed) the win target 100 with the ship alive, on which the
terminal-state query reports false. -/
theorem C4_counterexample :
    100 ≤ gScore101.score ∧ 0 < gScore101.player.health
    ∧ Game.check_game_over gScore101 = false := by
  with_unfolding_all decide

/-- The laser hit scan only rewrites the struck asteroid's health in place:
the id sequence of the collection is unchanged, so no split child is ever
inserted while the collection is being iterated. -/
theorem laserHitScan_ids (env : Env) (l : Laser) (asts : List Asteroid) :
    asteroidIds (laserHitScan env l asts).1 = asteroidIds asts := by
  induction asts with
  | nil => rfl
  | cons a rest ih =>
    unfold laserHitScan
    split_ifs with h
    · simp only [asteroidIds, List.map_cons, Asteroid.take_hit_id]
    · simp only [asteroidIds, List.map_cons] at ih ⊢
      rw [ih]

/-! Claim C2. -/

/-- Claim C2: the split block creates exactly two asteroids at the parent's
position, each of radius exactly half the parent's, with the parent velocity
perturbed by equal-and-opposite displacements of speed 100 along the one
shared drawn angle, cross-referenced collision exemptions on the two freshly
allocated ids, and an id-counter advance of exactly 2 at the laser-kill call
site; the children go to a side buffer and the iterated collection's id
sequence never changes mid-pass. -/
theorem C2_split (env : Env) (a : Asteroid) (c : ℕ) (angle : ℚ)
    (h : 20 < a.radius) :
    (mkSplitPair env a c angle).1.position = a.position
    ∧ (mkSplitPair env a c angle).2.position = a.position
    ∧ (mkSplitPair env a c angle).1.radius = a.radius / 2
    ∧ (mkSplitPair env a c angle).2.radius = a.radius / 2
    ∧ (mkSplitPair env a c angle).1.velocity
        = a.velocity + (100 : ℚ) • (⟨env.cos angle, env.sin angle⟩ : Vec2)
    ∧ (mkSplitPair env a c angle).2.velocity
        = a.velocity - (100 : ℚ) • (⟨env.cos angle, env.sin angle⟩ : Vec2)
    ∧ (mkSplitPair env a c angle).1.id = c + 1
    ∧ (mkSplitPair env a c angle).2.id = c + 2
    ∧ (mkSplitPair env a c angle).1.ignore_collision_with = some (c + 2)
    ∧ (mkSplitPair env a c angle).2.ignore_collision_with = some (c + 1)
    ∧ (∀ st : LaserPass,
        (laserKillSplit env a st).counter = st.counter + 2
        ∧ ∃ k2 : ℕ, (laserKillSplit env a st).splits
            = st.splits
              ++ [(mkSplitPair env a st.counter (env.rand k2 0 env.tau)).1,
                  (mkSplitPair env a st.counter (env.rand k2 0 env.tau)).2])
    ∧ (∀ l asts, asteroidIds (laserHitScan env l asts).1 = asteroidIds asts) := by
  refine ⟨rfl, rfl, rfl, rfl, rfl, rfl, rfl, rfl, rfl, rfl,
    fun st => ?_, laserHitScan_ids env⟩
  unfold laserKillSplit
  rw [if_pos h]
  exact ⟨rfl, ⟨(pushParticles env a.position.x a.position.y 100 300 15
    (st.particles, st.k)).2, rfl⟩⟩

/-- Witness for C2 at a concrete large asteroid: half radius, second child id,
cross exemption, and the counter advance at the laser-kill site. -/
theorem C2_split_witness :
    (mkSplitPair env0 aBig 30 1).1.radius = aBig.radius / 2
    ∧ (mkSplitPair env0 aBig 30 1).2.id = 32
    ∧ (mkSplitPair env0 aBig 30 1).1.ignore_collision_with = some 32
    ∧ (laserKillSplit env0 aBig
        { doneLasers := [], asts := [], removeA := [], removeL := [],
          splits := [], counter := 30, score := 0, particles := [],
          k := 0 }).counter = 32 := by
  obtain ⟨-, -, h3, -, -, -, -, h8, h9, -, h11, -⟩ :=
    C2_split env0 aBig 30 1 (by with_unfolding_all decide)
  exact ⟨h3, h8, h9, (h11 _).1⟩

/-- The laser-kill split block only touches the particle buffer, the draw
index, the split side buffer and the id counter. -/
theorem laserKillSplit_frame (env : Env) (a1 : Asteroid) (st : LaserPass) :
    (laserKillSplit env a1 st).doneLasers = st.doneLasers
    ∧ (laserKillSplit env a1 st).asts = st.asts
    ∧ (laserKillSplit env a1 st).removeA = st.removeA
    ∧ (laserKillSplit env a1 st).removeL = st.removeL
    ∧ (laserKillSplit env a1 st).score = st.score := by
  unfold laserKillSplit
  split_ifs <;> exact ⟨rfl, rfl, rfl, rfl, rfl⟩

/-- One laser-loop iteration appends exactly the advanced laser to the
processed-laser list. -/
theorem laserPassStep_done (env : Env) (ft w hh : ℚ) (l : Laser)
    (st : LaserPass) :
    (laserPassStep env ft w hh l st).doneLasers
      = st.doneLasers ++ [l.tick ft] := by
  unfold laserPassStep
  rcases hscan : laserHitScan env (l.tick ft) st.asts with ⟨asts1, hit⟩
  cases hit with
  | none => simp only [hscan]; split_ifs <;> rfl
  | some a1 =>
    simp only [hscan]
    split_ifs <;> simp only [laserKillSplit_frame]

/-- The laser loop processes exactly the input lasers, in order, each advanced
by one frame; ids are unchanged. -/
theorem laserPassGo_done (env : Env) (ft w hh : ℚ) (ls : List Laser)
    (st : LaserPass) :
    laserIds (laserPassGo env ft w hh ls st).doneLasers
      = laserIds st.doneLasers ++ laserIds ls := by
  induction ls generalizing st with
  | nil => simp [laserPassGo, laserIds]
  | cons l rest ih =>
    rw [laserPassGo, ih, laserPassStep_done]
    simp [laserIds, Laser.tick_keeps_id]

set_option maxHeartbeats 2000000 in
/-- Anatomy of one tick: the session fields after `Game.tick` expressed
through the four phases (input/fire/cooldown prelude, ship-collision pass,
bounce pass, laser pass) and the spawner. -/
theorem Game.tick_anatomy (env : Env) (input : Input) (ft : ℚ) (g : Game)
    (k : ℕ) :
    let g1 := Game.cooldownStep ft (Game.fireStep env input
      (Game.moveShip env input ft g))
    let sp := shipPassGo env ft g1.width g1.height g1.asteroids
      { done := [], player := g1.player, particles := g1.particles,
        death_timer := g1.death_timer, counter := g1.asteroid_counter,
        splits := [], removeA := [], k := k }
    let bp := bouncePass env sp.done sp.particles sp.k
    let lp := laserPassGo env ft g1.width g1.height g1.lasers
      { doneLasers := [], asts := bp.1, removeA := sp.removeA, removeL := [],
        splits := [], counter := sp.counter, score := g1.score,
        particles := bp.2.1, k := bp.2.2 }
    let gen := genCore env g1.width g1.height g1.center g1.max_asteroids
      (lp.asts.filter (fun a => decide (¬ a.id ∈ lp.removeA)), lp.counter, lp.k)
    (Game.tick env input ft (g, k)).1.asteroids
        = gen.1 ++ lp.splits ++ sp.splits
    ∧ (Game.tick env input ft (g, k)).1.lasers
        = lp.doneLasers.filter (fun l => decide (¬ l.id ∈ lp.removeL))
    ∧ (Game.tick env input ft (g, k)).1.asteroid_counter = gen.2.1
    ∧ (Game.tick env input ft (g, k)).1.laser_counter = g1.laser_counter
    ∧ (Game.tick env input ft (g, k)).1.score = lp.score := by
  refine ⟨?_, ?_, ?_, ?_, ?_⟩ <;>
    (unfold Game.tick; simp only []; split_ifs <;> rfl)

/-- The timer-decrement block touches neither collections nor counters. -/
theorem Game.cooldownStep_frame (ft : ℚ) (g : Game) :
    (Game.cooldownStep ft g).lasers = g.lasers
    ∧ (Game.cooldownStep ft g).laser_counter = g.laser_counter
    ∧ (Game.cooldownStep ft g).laser_cooldown = g.laser_cooldown
    ∧ (Game.cooldownStep ft g).asteroids = g.asteroids
    ∧ (Game.cooldownStep ft g).asteroid_counter = g.asteroid_counter
    ∧ (Game.cooldownStep ft g).score = g.score := by
  unfold Game.cooldownStep
  dsimp only
  split_ifs <;> exact ⟨rfl, rfl, rfl, rfl, rfl, rfl⟩

/-- The movement block only rewrites the player. -/
theorem Game.moveShip_frame (env : Env) (input : Input) (ft : ℚ) (g : Game) :
    (Game.moveShip env input ft g).lasers = g.lasers
    ∧ (Game.moveShip env input ft g).laser_counter = g.laser_counter
    ∧ (Game.moveShip env input ft g).laser_cooldown_remaining
        = g.laser_cooldown_remaining
    ∧ (Game.moveShip env input ft g).asteroids = g.asteroids
    ∧ (Game.moveShip env input ft g).asteroid_counter = g.asteroid_counter
    ∧ (Game.moveShip env input ft g).score = g.score :=
  ⟨rfl, rfl, rfl, rfl, rfl, rfl⟩

/-- Firing appends at most one laser. -/
theorem Game.fireStep_len (env : Env) (input : Input) (g : Game) :
    (Game.fireStep env input g).lasers.length ≤ g.lasers.length + 1 := by
  unfold Game.fireStep
  split_ifs
  · simp
  · simp

/-- Length form of `laserPassGo_done`: the processed-laser list grows by
exactly the number of input lasers. -/
theorem laserPassGo_done_len (env : Env) (ft w hh : ℚ) (ls : List Laser)
    (st : LaserPass) :
    (laserPassGo env ft w hh ls st).doneLasers.length
      = st.doneLasers.length + ls.length := by
  have h := congrArg List.length (laserPassGo_done env ft w hh ls st)
  simpa [laserIds] using h

/-! Claim C7. -/

/-- Claim C7: a laser is appended exactly when the remaining cooldown is
nonpositive and fire is held; the accepted laser carries the next id from the
laser counter and the cooldown restarts at the configured duration
(`laser_cooldown`, set to 0.2 s by the constructor); otherwise the firing
block is the identity; and a tick never grows the laser collection by more
than one. -/
theorem C7_firing (env : Env) (input : Input) (g : Game) :
    (g.laser_cooldown_remaining ≤ 0 ∧ input.space = true →
        (Game.fireStep env input g).lasers
          = g.lasers
            ++ [Laser.new ((Ship.vertices env g.player).getD 1 default).x
                ((Ship.vertices env g.player).getD 1 default).y
                (g.player.velocity.x + 500 * env.cos g.player.rotation)
                (g.player.velocity.y + 500 * env.sin g.player.rotation)
                (g.laser_counter + 1)]
        ∧ (Game.fireStep env input g).laser_counter = g.laser_counter + 1
        ∧ (Game.fireStep env input g).laser_cooldown_remaining
            = g.laser_cooldown)
    ∧ (¬(g.laser_cooldown_remaining ≤ 0 ∧ input.space = true) →
        Game.fireStep env input g = g)
    ∧ (∀ k, (Game.new env k).1.laser_cooldown = 1 / 5)
    ∧ (∀ ft k, (Game.tick env input ft (g, k)).1.lasers.length
        ≤ g.lasers.length + 1) := by
  refine ⟨?_, ?_, fun k => rfl, fun ft k => ?_⟩
  · unfold Game.fireStep
    split_ifs with h
    · exact fun _ => ⟨rfl, rfl, rfl⟩
    · exact fun hc => absurd hc h
  · unfold Game.fireStep
    split_ifs with h
    · exact fun hc => absurd h hc
    · exact fun _ => rfl
  · have ha := Game.tick_anatomy env input ft g k
    simp only [] at ha
    rw [ha.2.1]
    refine le_trans (List.length_filter_le _ _) ?_
    rw [laserPassGo_done_len]
    dsimp only
    rw [(Game.cooldownStep_frame ft _).1]
    simpa using Game.fireStep_len env input (Game.moveShip env input ft g)

/-- Witness for C7: with the cooldown elapsed and fire held, one laser with
the next id appears and the cooldown restarts; with fire released, the firing
block is the identity. -/
theorem C7_firing_witness :
    (Game.fireStep env0 { input0 with space := true }
        { gW with laser_cooldown_remaining := 0 }).laser_counter = 1
    ∧ (Game.fireStep env0 { input0 with space := true }
        { gW with laser_cooldown_remaining := 0 }).laser_cooldown_remaining
        = 1 / 5
    ∧ Game.fireStep env0 input0 gW = gW := by
  obtain ⟨hacc, -, -, -⟩ := C7_firing env0 { input0 with space := true }
    { gW with laser_cooldown_remaining := 0 }
  obtain ⟨-, hrej, -, -⟩ := C7_firing env0 input0 gW
  obtain ⟨-, h2, h3⟩ := hacc (by with_unfolding_all decide)
  refine ⟨?_, ?_, hrej (by with_unfolding_all decide)⟩
  · rw [h2]
    rfl
  · rw [h3]
    rfl

/-- One placement-attempt loop: at most one asteroid is appended; its id is
the successor of the incoming counter; the counter advances by the number of
appended asteroids. -/
theorem spawnTry_spec (env : Env) (b : Boundary) (w hh : ℚ) (cen : Vec2) :
    ∀ (fuel : ℕ) (st : GenState),
      st.2.1 ≤ (spawnTry env b w hh cen fuel st).2.1
      ∧ (spawnTry env b w hh cen fuel st).2.1 - st.2.1 ≤ 1
      ∧ (spawnTry env b w hh cen fuel st).1.length
          = st.1.length + ((spawnTry env b w hh cen fuel st).2.1 - st.2.1)
      ∧ asteroidIds (spawnTry env b w hh cen fuel st).1
          = asteroidIds st.1
            ++ List.range' (st.2.1 + 1)
                ((spawnTry env b w hh cen fuel st).2.1 - st.2.1) := by
  intro fuel
  induction fuel with
  | zero =>
    rintro ⟨asts, c, k⟩
    refine ⟨?_, ?_, ?_, ?_⟩ <;> simp [spawnTry, asteroidIds]
  | succ fuel ih =>
    rintro ⟨asts, c, k⟩
    rw [spawnTry]
    dsimp only
    split_ifs with hover
    · exact ih (asts, c, k + 2)
    · dsimp only
      refine ⟨by omega, by omega, ?_, ?_⟩
      · simp
      · simp [asteroidIds, Asteroid.new]

/-- Two adjacent blocks of consecutive ids glue into one. -/
theorem range'_glue (c0 c1 c2 : ℕ) (h01 : c0 ≤ c1) (h12 : c1 ≤ c2) :
    List.range' (c0 + 1) (c1 - c0) ++ List.range' (c1 + 1) (c2 - c1)
      = List.range' (c0 + 1) (c2 - c0) := by
  have e1 : c1 + 1 = (c0 + 1) + (c1 - c0) := by omega
  rw [e1, List.range'_append_1]
  congr 1
  omega

/-- Composing two spawner stages: counters stay monotone, spawn counts add,
and the freshly allocated ids stay one contiguous block above the incoming
counter. -/
theorem genChain (f g : GenState → GenState) (m n : ℕ)
    (hf : ∀ st : GenState, st.2.1 ≤ (f st).2.1 ∧ (f st).2.1 - st.2.1 ≤ m
      ∧ (f st).1.length = st.1.length + ((f st).2.1 - st.2.1)
      ∧ asteroidIds (f st).1
          = asteroidIds st.1 ++ List.range' (st.2.1 + 1) ((f st).2.1 - st.2.1))
    (hg : ∀ st : GenState, st.2.1 ≤ (g st).2.1 ∧ (g st).2.1 - st.2.1 ≤ n
      ∧ (g st).1.length = st.1.length + ((g st).2.1 - st.2.1)
      ∧ asteroidIds (g st).1
          = asteroidIds st.1 ++ List.range' (st.2.1 + 1) ((g st).2.1 - st.2.1)) :
    ∀ st : GenState, st.2.1 ≤ (g (f st)).2.1 ∧ (g (f st)).2.1 - st.2.1 ≤ m + n
      ∧ (g (f st)).1.length = st.1.length + ((g (f st)).2.1 - st.2.1)
      ∧ asteroidIds (g (f st)).1
          = asteroidIds st.1
            ++ List.range' (st.2.1 + 1) ((g (f st)).2.1 - st.2.1) := by
  intro st
  obtain ⟨h1, h2, h3, h4⟩ := hf st
  obtain ⟨g1, g2, g3, g4⟩ := hg (f st)
  refine ⟨by omega, by omega, by omega, ?_⟩
  rw [g4, h4, List.append_assoc, range'_glue st.2.1 (f st).2.1 (g (f st)).2.1 h1 g1]

/-- One boundary's spawn loop: at most `n` asteroids are appended, their ids
forming the contiguous block just above the incoming counter. -/
theorem spawnSlots_spec (env : Env) (b : Boundary) (w hh : ℚ) (cen : Vec2) :
    ∀ (n : ℕ) (st : GenState),
      st.2.1 ≤ (spawnSlots env b w hh cen n st).2.1
      ∧ (spawnSlots env b w hh cen n st).2.1 - st.2.1 ≤ n
      ∧ (spawnSlots env b w hh cen n st).1.length
          = st.1.length + ((spawnSlots env b w hh cen n st).2.1 - st.2.1)
      ∧ asteroidIds (spawnSlots env b w hh cen n st).1
          = asteroidIds st.1
            ++ List.range' (st.2.1 + 1)
                ((spawnSlots env b w hh cen n st).2.1 - st.2.1) := by
  intro n
  induction n with
  | zero =>
    intro st
    refine ⟨?_, ?_, ?_, ?_⟩ <;> simp [spawnSlots, asteroidIds]
  | succ n ih =>
    intro st
    have h := genChain (fun s => spawnTry env b w hh cen 10 s)
      (fun s => spawnSlots env b w hh cen n s) 1 n
      (spawnTry_spec env b w hh cen 10) ih st
    rw [spawnSlots]
    exact ⟨h.1, by have := h.2.1; omega, h.2.2.1, h.2.2.2⟩

/-- The spawner core: the counter is monotone, the spawn count is at most
four times a quarter of the deficit, the collection grows by exactly the
number of spawns, and the new ids are the contiguous block just above the
incoming counter. -/
theorem genCore_spec (env : Env) (w hh : ℚ) (cen : Vec2) (maxA : ℕ)
    (st : GenState) :
    st.2.1 ≤ (genCore env w hh cen maxA st).2.1
    ∧ (genCore env w hh cen maxA st).2.1 - st.2.1
        ≤ 4 * ((maxA - min st.1.length maxA) / 4)
    ∧ (genCore env w hh cen maxA st).1.length
        = st.1.length + ((genCore env w hh cen maxA st).2.1 - st.2.1)
    ∧ asteroidIds (genCore env w hh cen maxA st).1
        = asteroidIds st.1
          ++ List.range' (st.2.1 + 1)
              ((genCore env w hh cen maxA st).2.1 - st.2.1) := by
  have h12 := genChain
    (fun s => spawnSlots env .left w hh cen ((maxA - min st.1.length maxA) / 4) s)
    (fun s => spawnSlots env .top w hh cen ((maxA - min st.1.length maxA) / 4) s)
    ((maxA - min st.1.length maxA) / 4) ((maxA - min st.1.length maxA) / 4)
    (spawnSlots_spec env .left w hh cen ((maxA - min st.1.length maxA) / 4))
    (spawnSlots_spec env .top w hh cen ((maxA - min st.1.length maxA) / 4))
  have h123 := genChain
    (fun s => spawnSlots env .top w hh cen ((maxA - min st.1.length maxA) / 4)
      (spawnSlots env .left w hh cen ((maxA - min st.1.length maxA) / 4) s))
    (fun s => spawnSlots env .right w hh cen ((maxA - min st.1.length maxA) / 4) s)
    ((maxA - min st.1.length maxA) / 4 + (maxA - min st.1.length maxA) / 4)
    ((maxA - min st.1.length maxA) / 4)
    h12
    (spawnSlots_spec env .right w hh cen ((maxA - min st.1.length maxA) / 4))
  have h1234 := genChain
    (fun s => spawnSlots env .right w hh cen ((maxA - min st.1.length maxA) / 4)
      (spawnSlots env .top w hh cen ((maxA - min st.1.length maxA) / 4)
        (spawnSlots env .left w hh cen ((maxA - min st.1.length maxA) / 4) s)))
    (fun s => spawnSlots env .bottom w hh cen ((maxA - min st.1.length maxA) / 4) s)
    ((maxA - min st.1.length maxA) / 4 + (maxA - min st.1.length maxA) / 4
      + (maxA - min st.1.length maxA) / 4)
    ((maxA - min st.1.length maxA) / 4)
    h123
    (spawnSlots_spec env .bottom w hh cen ((maxA - min st.1.length maxA) / 4))
  have h := h1234 st
  simp only [] at h
  unfold genCore
  dsimp only
  exact ⟨h.1, by have := h.2.1; omega, h.2.2.1, h.2.2.2⟩

/-! Claim C9. -/

/-- Claim C9 (amended): the spawner adds at most `4 * (deficit / 4)` new
asteroids, where the deficit is the cap minus the capped current count; hence
a collection at or below the cap never exceeds the cap after replenishment,
and a deficit below 4 spawns nothing at all. (A collection already above the
cap — reachable because split children are appended past the cap — is left
unchanged rather than trimmed, so the count after the spawner is not bounded
by the cap for every state.) -/
theorem C9_generate_bound (env : Env) (g : Game) (k : ℕ) :
    (Game.generate_asteroids env (g, k)).1.asteroids.length
        ≤ g.asteroids.length
          + 4 * ((g.max_asteroids - min g.asteroids.length g.max_asteroids) / 4)
    ∧ (g.asteroids.length ≤ g.max_asteroids →
        (Game.generate_asteroids env (g, k)).1.asteroids.length
          ≤ g.max_asteroids)
    ∧ (g.max_asteroids - min g.asteroids.length g.max_asteroids < 4 →
        (Game.generate_asteroids env (g, k)).1.asteroids = g.asteroids) := by
  obtain ⟨h1, h2, h3, h4⟩ := genCore_spec env g.width g.height g.center
    g.max_asteroids (g.asteroids, g.asteroid_counter, k)
  dsimp only at h1 h2 h3 h4
  refine ⟨?_, fun hle => ?_, fun hd => ?_⟩
  · show (genCore env g.width g.height g.center g.max_asteroids
      (g.asteroids, g.asteroid_counter, k)).1.length ≤ _
    omega
  · show (genCore env g.width g.height g.center g.max_asteroids
      (g.asteroids, g.asteroid_counter, k)).1.length ≤ _
    omega
  · show (genCore env g.width g.height g.center g.max_asteroids
      (g.asteroids, g.asteroid_counter, k)).1 = g.asteroids
    unfold genCore
    dsimp only
    rw [Nat.div_eq_of_lt hd]
    rfl

/-- Witness for C9 at a concrete session with no deficit: the spawner leaves
the empty collection unchanged and respects the cap. -/
theorem C9_generate_bound_witness :
    (Game.generate_asteroids env0 (gW, 0)).1.asteroids = gW.asteroids
    ∧ (Game.generate_asteroids env0 (gW, 0)).1.asteroids.length
        ≤ gW.max_asteroids := by
  obtain ⟨-, h2, h3⟩ := C9_generate_bound env0 gW 0
  exact ⟨h3 (by decide), h2 (by decide)⟩

/-- Counterexample for C9 as stated: a session holding 21 asteroids against a
cap of 20 still holds 21 immediately after the spawner, so the count after
`generate_asteroids` can exceed `max_asteroids`. -/
theorem C9_counterexample :
    gOver.asteroids.length = 21 ∧ gOver.max_asteroids = 20
    ∧ (Game.generate_asteroids env0 (gOver, 0)).1.asteroids.length = 21 := by
  with_unfolding_all decide

/-! Claim C5. -/

/-- Claim C5 (amended): reset clears the lasers, particles, score and death
timer, rebuilds the ship, and regenerates the asteroid collection from
empty, while leaving arena width, height and center unchanged; however the
laser id counter and the remaining fire cooldown are left at their pre-reset
values (not reinitialized), and the asteroid id counter continues upward from
its pre-reset value as regeneration allocates fresh ids. -/
theorem C5_reset (env : Env) (gk : Game × ℕ) :
    (Game.reset env gk).1.lasers = []
    ∧ (Game.reset env gk).1.score = 0
    ∧ (Game.reset env gk).1.particles = []
    ∧ (Game.reset env gk).1.death_timer = 0
    ∧ (Game.reset env gk).1.player
        = Ship.new env (env.screenW / 2) (env.screenH / 2)
    ∧ (Game.reset env gk).1.width = gk.1.width
    ∧ (Game.reset env gk).1.height = gk.1.height
    ∧ (Game.reset env gk).1.center = gk.1.center
    ∧ (Game.reset env gk).1.max_asteroids = gk.1.max_asteroids
    ∧ (Game.reset env gk).1.laser_counter = gk.1.laser_counter
    ∧ (Game.reset env gk).1.laser_cooldown_remaining
        = gk.1.laser_cooldown_remaining
    ∧ gk.1.asteroid_counter ≤ (Game.reset env gk).1.asteroid_counter := by
  refine ⟨rfl, rfl, rfl, rfl, rfl, rfl, rfl, rfl, rfl, rfl, rfl, ?_⟩
  exact (genCore_spec env gk.1.width gk.1.height gk.1.center
    gk.1.max_asteroids ([], gk.1.asteroid_counter, gk.2)).1

/-- Counterexample for C5 as stated: after reset the laser id counter is
still 5 and the remaining cooldown still 3/20 s, while the start-of-game
values set by the constructor are 0 and 0. -/
theorem C5_counterexample :
    g5.laser_counter = 5 ∧ g5.laser_cooldown_remaining = 3 / 20
    ∧ (Game.reset env0 (g5, 0)).1.laser_counter = 5
    ∧ (Game.reset env0 (g5, 0)).1.laser_cooldown_remaining = 3 / 20
    ∧ (Game.new env0 0).1.laser_counter = 0
    ∧ (Game.new env0 0).1.laser_cooldown_remaining = 0 := by
  with_unfolding_all decide

/-- The hit scan's reported asteroid is the first asteroid whose disc contains
the laser point, after its hit is applied. -/
theorem laserHitScan_find (env : Env) (l : Laser) (asts : List Asteroid) :
    (laserHitScan env l asts).2
      = (asts.find? (fun a =>
          decide (distance env l.position a.position < a.radius))).map
          Asteroid.take_hit := by
  induction asts with
  | nil => rfl
  | cons a rest ih =>
    by_cases h : distance env l.position a.position < a.radius
    · rw [laserHitScan, if_pos h, List.find?_cons_of_pos _ (by simpa using h)]
      rfl
    · rw [laserHitScan, if_neg h, List.find?_cons_of_neg _ (by simpa using h)]
      exact ih

/-- One laser-loop iteration adds 1 to the score exactly when the first
asteroid struck by the advanced laser ends the hit at health zero — that is,
when its health before the hit is at most 1, including the value 0 left by an
earlier laser of the same tick. -/
theorem laserPassStep_score (env : Env) (ft w hh : ℚ) (l : Laser)
    (st : LaserPass) :
    (laserPassStep env ft w hh l st).score
      = st.score
        + Option.elim
            (st.asts.find? (fun a =>
              decide (distance env (Laser.tick l ft).position a.position
                < a.radius)))
            0 (fun a => if a.health ≤ 1 then 1 else 0) := by
  unfold laserPassStep
  rcases hscan : laserHitScan env (l.tick ft) st.asts with ⟨asts1, hit⟩
  have hfind := laserHitScan_find env (l.tick ft) st.asts
  rw [hscan] at hfind
  dsimp only at hfind
  cases hfd : st.asts.find? (fun a =>
      decide (distance env (Laser.tick l ft).position a.position < a.radius)) with
  | none =>
    rw [hfd] at hfind
    simp only [Option.map_none'] at hfind
    subst hfind
    simp only [hscan]
    split_ifs <;> simp [Option.elim]
  | some a =>
    rw [hfd] at hfind
    simp only [Option.map_some'] at hfind
    subst hfind
    simp only [hscan]
    have hh1 : (Asteroid.take_hit a).health = a.health - 1 :=
      Asteroid.take_hit_health a
    by_cases hz : (Asteroid.take_hit a).health = 0
    · have hle : a.health ≤ 1 := by omega
      rw [if_pos hz]
      split_ifs <;>
        simp [Option.elim, hle, (laserKillSplit_frame env _ _).2.2.2.2]
    · have hgt : ¬ a.health ≤ 1 := by omega
      rw [if_neg hz]
      split_ifs <;> simp [Option.elim, hgt]

/-- The score never decreases across the laser loop. -/
theorem laserPassGo_score_mono (env : Env) (ft w hh : ℚ) (ls : List Laser) :
    ∀ st : LaserPass, st.score ≤ (laserPassGo env ft w hh ls st).score := by
  induction ls with
  | nil => intro st; exact le_refl _
  | cons l rest ih =>
    intro st
    rw [laserPassGo]
    refine le_trans ?_ (ih (laserPassStep env ft w hh l st))
    rw [laserPassStep_score]
    omega

/-- Firing does not touch the score. -/
theorem Game.fireStep_score (env : Env) (input : Input) (g : Game) :
    (Game.fireStep env input g).score = g.score := by
  unfold Game.fireStep
  split_ifs <;> rfl

/-! Claim C1. -/

/-- Claim C1 (amended): during the laser pass each laser contributes exactly
1 to the score when the first asteroid its advanced position strikes ends the
hit at health 0 — equivalently, its health before the hit is at most 1 —
and 0 otherwise; since an asteroid destroyed earlier in the same tick stays
in the scanned collection at health 0 until the removal pass, a second
overlapping laser strikes it again and scores again, so one destroyed
asteroid can contribute more than 1 in a tick; outside the laser pass no
step of the tick changes the score, which is monotone across a tick. -/
theorem C1_score_per_laser_hit (env : Env) (ft : ℚ) :
    (∀ (w hh : ℚ) (l : Laser) (st : LaserPass),
      (laserPassStep env ft w hh l st).score
        = st.score
          + Option.elim
              (st.asts.find? (fun a =>
                decide (distance env (Laser.tick l ft).position a.position
                  < a.radius)))
              0 (fun a => if a.health ≤ 1 then 1 else 0))
    ∧ (∀ (input : Input) (g : Game) (k : ℕ),
        g.score ≤ (Game.tick env input ft (g, k)).1.score) := by
  refine ⟨laserPassStep_score env ft, fun input g k => ?_⟩
  have ha := Game.tick_anatomy env input ft g k
  simp only [] at ha
  rw [ha.2.2.2.2]
  refine le_trans (le_of_eq ?_) (laserPassGo_score_mono env ft _ _ _ _)
  show g.score
    = (Game.cooldownStep ft (Game.fireStep env input
        (Game.moveShip env input ft g))).score
  rw [(Game.cooldownStep_frame ft _).2.2.2.2.2, Game.fireStep_score,
    (Game.moveShip_frame env input ft g).2.2.2.2.2]

/-- Counterexample for C1 as stated: a session with a single asteroid of
health 1 overlapped by two lasers; after one tick the score has increased by
2 although only one asteroid was destroyed. -/
theorem C1_counterexample :
    gC1.asteroids.length = 1 ∧ gC1.score = 0
    ∧ (Game.tick env1 input0 1 (gC1, 0)).1.score = 2
    ∧ (Game.tick env1 input0 1 (gC1, 0)).1.asteroids = [] := by
  with_unfolding_all decide

/-! Component arithmetic of the Vec2 instances. -/

theorem Vec2.add_x (a b : Vec2) : (a + b).x = a.x + b.x := rfl

theorem Vec2.add_y (a b : Vec2) : (a + b).y = a.y + b.y := rfl

theorem Vec2.sub_x (a b : Vec2) : (a - b).x = a.x - b.x := rfl

theorem Vec2.sub_y (a b : Vec2) : (a - b).y = a.y - b.y := rfl

theorem Vec2.smul_x (c : ℚ) (v : Vec2) : (c • v).x = c * v.x := rfl

theorem Vec2.smul_y (c : ℚ) (v : Vec2) : (c • v).y = c * v.y := rfl

theorem Vec2.div_x (v : Vec2) (c : ℚ) : (v / c).x = v.x / c := rfl

theorem Vec2.div_y (v : Vec2) (c : ℚ) : (v / c).y = v.y / c := rfl

theorem Vec2.dot_def (a b : Vec2) : a.dot b = a.x * b.x + a.y * b.y := rfl

/-- Scalar form of the separation step: moving the two centers apart along
the unit normal by half the overlap plus one each leaves them at distance
`collision_distance + 2`. -/
theorem sep_aux (px py d cd : ℚ) (hdne : d ≠ 0)
    (hsq : d * d = px ^ 2 + py ^ 2) :
    (px + 2 * ((cd - d) / 2 + 1) * (px / d)) ^ 2
      + (py + 2 * ((cd - d) / 2 + 1) * (py / d)) ^ 2 = (cd + 2) ^ 2 := by
  have e1 : px + 2 * ((cd - d) / 2 + 1) * (px / d) = px * ((cd + 2) / d) := by
    field_simp
    ring
  have e2 : py + 2 * ((cd - d) / 2 + 1) * (py / d) = py * ((cd + 2) / d) := by
    field_simp
    ring
  rw [e1, e2]
  field_simp
  linear_combination (-(cd + 2) ^ 2) * hsq

/-- Scalar form of the equal-mass elastic impulse: the normal components of
the two velocities swap. -/
theorem swap_aux (px py d r v1x v1y v2x v2y : ℚ) (hdne : d ≠ 0)
    (hrne : r ≠ 0) (hsq : d * d = px ^ 2 + py ^ 2) :
    (v1x + 2 * ((v2x - v1x) * (px / d) + (v2y - v1y) * (py / d))
          / (r ^ 2 + r ^ 2) * r ^ 2 * (px / d)) * (px / d)
      + (v1y + 2 * ((v2x - v1x) * (px / d) + (v2y - v1y) * (py / d))
          / (r ^ 2 + r ^ 2) * r ^ 2 * (py / d)) * (py / d)
      = v2x * (px / d) + v2y * (py / d)
    ∧ (v2x - 2 * ((v2x - v1x) * (px / d) + (v2y - v1y) * (py / d))
          / (r ^ 2 + r ^ 2) * r ^ 2 * (px / d)) * (px / d)
      + (v2y - 2 * ((v2x - v1x) * (px / d) + (v2y - v1y) * (py / d))
          / (r ^ 2 + r ^ 2) * r ^ 2 * (py / d)) * (py / d)
      = v1x * (px / d) + v1y * (py / d) := by
  have hv : 2 * ((v2x - v1x) * (px / d) + (v2y - v1y) * (py / d))
      / (r ^ 2 + r ^ 2) * r ^ 2
      = (v2x - v1x) * (px / d) + (v2y - v1y) * (py / d) := by
    field_simp
    ring
  have hn : (px / d) * (px / d) + (py / d) * (py / d) = 1 := by
    field_simp
    linear_combination -hsq
  constructor
  · rw [hv]
    linear_combination ((v2x - v1x) * (px / d) + (v2y - v1y) * (py / d)) * hn
  · rw [hv]
    linear_combination
      (-((v2x - v1x) * (px / d) + (v2y - v1y) * (py / d))) * hn

/-! Claim C8. -/

/-- Claim C8: for a non-exempt overlapping approaching pair whose distance
`d` is the true square root of the squared center distance, the resolution
step leaves the centers at squared distance exactly
`(radius sum + 2)^2 ≥ (radius sum)^2` — the overlap is fully removed — and
for equal radii the velocity components along the collision normal are
exchanged. -/
theorem C8_elastic (env : Env) (a1 a2 : Asteroid) (ps : List Particle)
    (k : ℕ) (d : ℚ)
    (hd : distance env a1.position a2.position = d)
    (hdsq : d * d = distSq a1.position a2.position)
    (hdpos : 0 < d)
    (hover : d < a1.radius + a2.radius)
    (hnoex : ¬(a1.ignore_collision_with = some a2.id ∨
      a2.ignore_collision_with = some a1.id))
    (hr1 : 0 < a1.radius) (hr2 : 0 < a2.radius)
    (happroach : (a2.velocity - a1.velocity).dot
      ((a2.position - a1.position) / d) < 0) :
    ∃ b1 b2, (bounceStep env 0 1 ([a1, a2], ps, k)).1 = [b1, b2]
      ∧ distSq b1.position b2.position = (a1.radius + a2.radius + 2) ^ 2
      ∧ (a1.radius + a2.radius) ^ 2 ≤ distSq b1.position b2.position
      ∧ (a1.radius = a2.radius →
          b1.velocity.dot ((a2.position - a1.position) / d)
              = a2.velocity.dot ((a2.position - a1.position) / d)
            ∧ b2.velocity.dot ((a2.position - a1.position) / d)
              = a1.velocity.dot ((a2.position - a1.position) / d)) := by
  have hdne : d ≠ 0 := ne_of_gt hdpos
  unfold distSq at hdsq
  unfold bounceStep
  dsimp only [List.get?]
  rw [hd]
  rw [if_neg (by tauto : ¬(((a1.ignore_collision_with = some a2.id ∨
      a2.ignore_collision_with = some a1.id)) ∧ a1.radius + a2.radius ≤ d))]
  rw [if_pos ⟨hover, hdpos, hnoex⟩]
  rw [if_pos happroach]
  dsimp only [List.set]
  have hsep : distSq
      ({ a1 with
          velocity := a1.velocity + (2 * ((a2.velocity - a1.velocity).dot
            ((a2.position - a1.position) / d)) / (a1.radius ^ 2 + a2.radius ^ 2)
            * a2.radius ^ 2) • ((a2.position - a1.position) / d),
          position := a1.position - ((a1.radius + a2.radius - d) / 2 + 1)
            • ((a2.position - a1.position) / d) } : Asteroid).position
      ({ a2 with
          velocity := a2.velocity - (2 * ((a2.velocity - a1.velocity).dot
            ((a2.position - a1.position) / d)) / (a1.radius ^ 2 + a2.radius ^ 2)
            * a1.radius ^ 2) • ((a2.position - a1.position) / d),
          position := a2.position + ((a1.radius + a2.radius - d) / 2 + 1)
            • ((a2.position - a1.position) / d) } : Asteroid).position
      = (a1.radius + a2.radius + 2) ^ 2 := by
    unfold distSq
    dsimp only
    simp only [Vec2.add_x, Vec2.add_y, Vec2.sub_x, Vec2.sub_y, Vec2.smul_x,
      Vec2.smul_y, Vec2.div_x, Vec2.div_y]
    linear_combination sep_aux (a2.position.x - a1.position.x)
      (a2.position.y - a1.position.y) d (a1.radius + a2.radius) hdne hdsq
  refine ⟨_, _, rfl, hsep, ?_, ?_⟩
  · rw [hsep]
    nlinarith [hr1, hr2]
  · intro hr
    have hrne : a1.radius ≠ 0 := ne_of_gt hr1
    rw [← hr]
    constructor
    · dsimp only
      simp only [Vec2.dot_def, Vec2.add_x, Vec2.add_y, Vec2.sub_x, Vec2.sub_y,
        Vec2.smul_x, Vec2.smul_y, Vec2.div_x, Vec2.div_y]
      linear_combination (swap_aux (a2.position.x - a1.position.x)
        (a2.position.y - a1.position.y) d a1.radius
        a1.velocity.x a1.velocity.y a2.velocity.x a2.velocity.y
        hdne hrne hdsq).1
    · dsimp only
      simp only [Vec2.dot_def, Vec2.add_x, Vec2.add_y, Vec2.sub_x, Vec2.sub_y,
        Vec2.smul_x, Vec2.smul_y, Vec2.div_x, Vec2.div_y]
      linear_combination (swap_aux (a2.position.x - a1.position.x)
        (a2.position.y - a1.position.y) d a1.radius
        a1.velocity.x a1.velocity.y a2.velocity.x a2.velocity.y
        hdne hrne hdsq).2

/-- Witness for C8 at a concrete symmetric pair: radius 2 asteroids at
distance 3 with opposite unit velocities along the axis. -/
theorem C8_elastic_witness :
    ∃ b1 b2, (bounceStep envW 0 1 ([aW1, aW2], [], 0)).1 = [b1, b2]
      ∧ distSq b1.position b2.position = (aW1.radius + aW2.radius + 2) ^ 2
      ∧ (aW1.radius + aW2.radius) ^ 2 ≤ distSq b1.position b2.position
      ∧ (aW1.radius = aW2.radius →
          b1.velocity.dot ((aW2.position - aW1.position) / (3 : ℚ))
              = aW2.velocity.dot ((aW2.position - aW1.position) / (3 : ℚ))
            ∧ b2.velocity.dot ((aW2.position - aW1.position) / (3 : ℚ))
              = aW1.velocity.dot ((aW2.position - aW1.position) / (3 : ℚ))) :=
  C8_elastic envW aW1 aW2 [] 0 3
    (by with_unfolding_all decide)
    (by with_unfolding_all decide)
    (by with_unfolding_all decide)
    (by with_unfolding_all decide)
    (by with_unfolding_all decide)
    (by with_unfolding_all decide)
    (by with_unfolding_all decide)
    (by with_unfolding_all decide)

/-- Setting an index to an element with the same image leaves the mapped list
unchanged. -/
theorem map_set_of_get? {α β : Type} (f : α → β) :
    ∀ (l : List α) (i : ℕ) (a : α), (l.map f).get? i = some (f a) →
      (l.set i a).map f = l.map f := by
  intro l
  induction l with
  | nil => intro i a h; simp at h
  | cons x xs ih =>
    intro i a h
    cases i with
    | zero =>
      simp only [List.map_cons, List.get?] at h
      simp only [List.set, List.map_cons]
      rw [Option.some_inj] at h
      rw [h]
    | succ n =>
      simp only [List.map_cons, List.get?] at h
      simp only [List.set, List.map_cons]
      rw [ih n a h]

/-- A fold preserves any invariant its step preserves. -/
theorem foldl_inv {α σ : Type} (f : σ → α → σ) (P : σ → Prop)
    (hstep : ∀ s x, P s → P (f s x)) :
    ∀ (l : List α) (s : σ), P s → P (l.foldl f s) := by
  intro l
  induction l with
  | nil => intro s hs; exact hs
  | cons x xs ih => intro s hs; exact ih (f s x) (hstep s x hs)

/-- Two in-place updates that keep the mapped values leave the mapped list
unchanged. -/
theorem map_set_set {α β : Type} (f : α → β) (l : List α) (i j : ℕ) (a b : α)
    (ha : (l.map f).get? i = some (f a)) (hb : (l.map f).get? j = some (f b)) :
    ((l.set i a).set j b).map f = l.map f := by
  have e1 : (l.set i a).map f = l.map f := map_set_of_get? f l i a ha
  have e2 : ((l.set i a).set j b).map f = (l.set i a).map f :=
    map_set_of_get? f _ j b (by rw [e1]; exact hb)
  rw [e2, e1]

/-- One bounce-resolution step only rewrites velocities, positions and
exemption flags in place: the id sequence of the collection is unchanged. -/
theorem bounceStep_ids (env : Env) (i j : ℕ)
    (st : List Asteroid × List Particle × ℕ) :
    asteroidIds (bounceStep env i j st).1 = asteroidIds st.1 := by
  unfold bounceStep
  rcases hi : st.1.get? i with _ | ai
  · dsimp only
    rw [hi]
  · rcases hj : st.1.get? j with _ | aj
    · dsimp only
      rw [hi, hj]
    · dsimp only
      rw [hi, hj]
      dsimp only
      have hgi : (st.1.map (fun a => a.id)).get? i = some ai.id := by
        rw [List.get?_map, hi]; rfl
      have hgj : (st.1.map (fun a => a.id)).get? j = some aj.id := by
        rw [List.get?_map, hj]; rfl
      by_cases hig : (ai.ignore_collision_with = some aj.id ∨
          aj.ignore_collision_with = some ai.id) ∧
          ai.radius + aj.radius ≤ distance env ai.position aj.position
      · rw [if_pos hig]
        rw [if_neg (fun hc => absurd hig.2 (not_le.mpr hc.1))]
        unfold asteroidIds
        split_ifs <;>
          first
            | exact map_set_set _ _ _ _ _ _ hgi hgj
            | exact map_set_of_get? _ _ _ _ hgi
            | exact map_set_of_get? _ _ _ _ hgj
            | rfl
      · rw [if_neg hig]
        unfold asteroidIds
        split_ifs <;>
          first
            | exact map_set_set _ _ _ _ _ _ hgi hgj
            | exact map_set_of_get? _ _ _ _ hgi
            | exact map_set_of_get? _ _ _ _ hgj
            | rfl

/-- The pairwise bounce pass preserves the id sequence of the collection. -/
theorem bouncePass_ids (env : Env) (asts : List Asteroid)
    (ps : List Particle) (k : ℕ) :
    asteroidIds (bouncePass env asts ps k).1 = asteroidIds asts := by
  unfold bouncePass
  dsimp only
  refine foldl_inv _
    (fun st : List Asteroid × List Particle × ℕ =>
      asteroidIds st.1 = asteroidIds asts) ?_ _ _ rfl
  intro s i hs
  refine foldl_inv _
    (fun st : List Asteroid × List Particle × ℕ =>
      asteroidIds st.1 = asteroidIds asts) ?_ _ _ hs
  intro s2 j hs2
  rw [bounceStep_ids]
  exact hs2

/-- One ship-collision iteration: the processed asteroid keeps its id, the
counter is monotone, and the split side buffer gains exactly the ids of the
block freshly allocated above the incoming counter. -/
theorem shipPassStep_spec (env : Env) (ft w hh : ℚ) (a : Asteroid)
    (st : ShipPass) :
    asteroidIds (shipPassStep env ft w hh a st).done
        = asteroidIds st.done ++ [a.id]
    ∧ st.counter ≤ (shipPassStep env ft w hh a st).counter
    ∧ asteroidIds (shipPassStep env ft w hh a st).splits
        = asteroidIds st.splits
          ++ List.range' (st.counter + 1)
              ((shipPassStep env ft w hh a st).counter - st.counter) := by
  unfold shipPassStep
  dsimp only
  split_ifs <;> dsimp only <;>
    refine ⟨by simp [asteroidIds, Asteroid.tick], by omega, ?_⟩ <;>
    first
      | (rw [Nat.add_sub_cancel_left]
         simp [asteroidIds, mkSplitPair, Asteroid.new_split, List.range'])
      | simp [asteroidIds]

/-- The ship-collision loop processes exactly the input asteroids in order
(ids unchanged), keeps the counter monotone, and fills the split side buffer
with exactly the contiguous id block allocated above the incoming counter. -/
theorem shipPassGo_spec (env : Env) (ft w hh : ℚ) :
    ∀ (asts : List Asteroid) (st : ShipPass),
      asteroidIds (shipPassGo env ft w hh asts st).done
          = asteroidIds st.done ++ asteroidIds asts
      ∧ st.counter ≤ (shipPassGo env ft w hh asts st).counter
      ∧ asteroidIds (shipPassGo env ft w hh asts st).splits
          = asteroidIds st.splits
            ++ List.range' (st.counter + 1)
                ((shipPassGo env ft w hh asts st).counter - st.counter) := by
  intro asts
  induction asts with
  | nil =>
    intro st
    refine ⟨by simp [shipPassGo, asteroidIds], ?_, ?_⟩ <;>
      simp [shipPassGo, asteroidIds]
  | cons a rest ih =>
    intro st
    rw [shipPassGo]
    obtain ⟨h1, h2, h3⟩ := shipPassStep_spec env ft w hh a st
    obtain ⟨g1, g2, g3⟩ := ih (shipPassStep env ft w hh a st)
    refine ⟨?_, by omega, ?_⟩
    · rw [g1, h1]
      simp [asteroidIds]
    · rw [g3, h3, List.append_assoc,
        range'_glue st.counter (shipPassStep env ft w hh a st).counter
          (shipPassGo env ft w hh rest (shipPassStep env ft w hh a st)).counter
          h2 g2]

/-- The laser-kill split block: counter monotone, split buffer gains exactly
the freshly allocated contiguous id block. -/
theorem laserKillSplit_ids (env : Env) (a1 : Asteroid) (st : LaserPass) :
    st.counter ≤ (laserKillSplit env a1 st).counter
    ∧ asteroidIds (laserKillSplit env a1 st).splits
        = asteroidIds st.splits
          ++ List.range' (st.counter + 1)
              ((laserKillSplit env a1 st).counter - st.counter) := by
  unfold laserKillSplit
  split_ifs <;> (try dsimp only) <;>
    refine ⟨by omega, ?_⟩ <;>
    first
      | (rw [Nat.add_sub_cancel_left]
         simp [asteroidIds, mkSplitPair, Asteroid.new_split, List.range'])
      | simp [asteroidIds]

/-- One laser-loop iteration: asteroid ids unchanged, counter monotone, and
the split side buffer gains exactly the freshly allocated contiguous id
block. -/
theorem laserPassStep_spec (env : Env) (ft w hh : ℚ) (l : Laser)
    (st : LaserPass) :
    asteroidIds (laserPassStep env ft w hh l st).asts = asteroidIds st.asts
    ∧ st.counter ≤ (laserPassStep env ft w hh l st).counter
    ∧ asteroidIds (laserPassStep env ft w hh l st).splits
        = asteroidIds st.splits
          ++ List.range' (st.counter + 1)
              ((laserPassStep env ft w hh l st).counter - st.counter) := by
  unfold laserPassStep
  rcases hscan : laserHitScan env (l.tick ft) st.asts with ⟨asts1, hit⟩
  have hids := laserHitScan_ids env (l.tick ft) st.asts
  rw [hscan] at hids
  cases hit with
  | none =>
    simp only [hscan]
    split_ifs <;> exact ⟨hids, le_refl _, by simp [asteroidIds]⟩
  | some a1 =>
    simp only [hscan]
    have hrec := laserKillSplit_ids env a1
      { st with
          doneLasers := st.doneLasers ++ [l.tick ft]
          asts := asts1
          removeA := a1.id :: st.removeA
          removeL := (l.tick ft).id :: st.removeL }
    have hfrm := laserKillSplit_frame env a1
      { st with
          doneLasers := st.doneLasers ++ [l.tick ft]
          asts := asts1
          removeA := a1.id :: st.removeA
          removeL := (l.tick ft).id :: st.removeL }
    split_ifs <;>
      refine ⟨?_, ?_, ?_⟩ <;> (try dsimp only) <;>
      first
        | (rw [hfrm.2.1]; exact hids)
        | exact hids
        | exact hrec.1
        | exact le_refl _
        | exact hrec.2
        | simp [asteroidIds]

/-- The laser loop: asteroid ids unchanged, counter monotone, and the split
side buffer gains exactly the contiguous id block freshly allocated above
the incoming counter. -/
theorem laserPassGo_spec (env : Env) (ft w hh : ℚ) :
    ∀ (ls : List Laser) (st : LaserPass),
      asteroidIds (laserPassGo env ft w hh ls st).asts = asteroidIds st.asts
      ∧ st.counter ≤ (laserPassGo env ft w hh ls st).counter
      ∧ asteroidIds (laserPassGo env ft w hh ls st).splits
          = asteroidIds st.splits
            ++ List.range' (st.counter + 1)
                ((laserPassGo env ft w hh ls st).counter - st.counter) := by
  intro ls
  induction ls with
  | nil =>
    intro st
    refine ⟨rfl, le_refl _, ?_⟩
    simp [laserPassGo, asteroidIds]
  | cons l rest ih =>
    intro st
    rw [laserPassGo]
    obtain ⟨h1, h2, h3⟩ := laserPassStep_spec env ft w hh l st
    obtain ⟨g1, g2, g3⟩ := ih (laserPassStep env ft w hh l st)
    refine ⟨g1.trans h1, by omega, ?_⟩
    rw [g3, h3, List.append_assoc,
      range'_glue st.counter (laserPassStep env ft w hh l st).counter
        (laserPassGo env ft w hh rest (laserPassStep env ft w hh l st)).counter
        h2 g2]

/-- Filtering asteroids by an id-membership test commutes with taking ids. -/
theorem asteroidIds_filter (r : List ℕ) (l : List Asteroid) :
    asteroidIds (l.filter fun a => decide (¬ a.id ∈ r))
      = (asteroidIds l).filter (fun i => decide (¬ i ∈ r)) := by
  induction l with
  | nil => rfl
  | cons a rest ih =>
    unfold asteroidIds at ih ⊢
    simp only [decide_not, List.filter_cons, List.map_cons] at ih ⊢
    cases hpa : decide (a.id ∈ r) <;> simp [hpa, ih]

/-- Filtering lasers by an id-membership test commutes with taking ids. -/
theorem laserIds_filter (r : List ℕ) (l : List Laser) :
    laserIds (l.filter fun x => decide (¬ x.id ∈ r))
      = (laserIds l).filter (fun i => decide (¬ i ∈ r)) := by
  induction l with
  | nil => rfl
  | cons a rest ih =>
    unfold laserIds at ih ⊢
    simp only [decide_not, List.filter_cons, List.map_cons] at ih ⊢
    cases hpa : decide (a.id ∈ r) <;> simp [hpa, ih]

/-- Firing never touches the asteroid state. -/
theorem Game.fireStep_frame2 (env : Env) (input : Input) (g : Game) :
    (Game.fireStep env input g).asteroids = g.asteroids
    ∧ (Game.fireStep env input g).asteroid_counter = g.asteroid_counter
    ∧ (Game.fireStep env input g).max_asteroids = g.max_asteroids := by
  unfold Game.fireStep
  split_ifs <;> exact ⟨rfl, rfl, rfl⟩

/-- Firing either leaves the session unchanged or appends one laser bearing
the incremented counter value as its id. -/
theorem Game.fireStep_cases (env : Env) (input : Input) (g : Game) :
    Game.fireStep env input g = g
    ∨ (laserIds (Game.fireStep env input g).lasers
          = laserIds g.lasers ++ [g.laser_counter + 1]
        ∧ (Game.fireStep env input g).laser_counter = g.laser_counter + 1) := by
  unfold Game.fireStep
  split_ifs
  · right
    exact ⟨by simp [laserIds, Laser.new], rfl⟩
  · left
    rfl

/-- Taking ids distributes over asteroid-list concatenation. -/
theorem asteroidIds_append (l1 l2 : List Asteroid) :
    asteroidIds (l1 ++ l2) = asteroidIds l1 ++ asteroidIds l2 :=
  List.map_append _ _ _

/-- Claim C6 (amended): a tick preserves distinctness of asteroid and laser
ids provided every live id is at most the corresponding counter (the
invariant the allocator maintains from a fresh session); both the
distinctness and the counter-dominance are reproduced after the tick. -/
theorem C6_id_uniqueness (env : Env) (input : Input) (ft : ℚ) (g : Game)
    (k : ℕ)
    (hA : (asteroidIds g.asteroids).Nodup)
    (hL : (laserIds g.lasers).Nodup)
    (hAc : ∀ i ∈ asteroidIds g.asteroids, i ≤ g.asteroid_counter)
    (hLc : ∀ i ∈ laserIds g.lasers, i ≤ g.laser_counter) :
    (asteroidIds (Game.tick env input ft (g, k)).1.asteroids).Nodup
    ∧ (laserIds (Game.tick env input ft (g, k)).1.lasers).Nodup
    ∧ (∀ i ∈ asteroidIds (Game.tick env input ft (g, k)).1.asteroids,
        i ≤ (Game.tick env input ft (g, k)).1.asteroid_counter)
    ∧ (∀ i ∈ laserIds (Game.tick env input ft (g, k)).1.lasers,
        i ≤ (Game.tick env input ft (g, k)).1.laser_counter) := by
  have hanil : asteroidIds ([] : List Asteroid) = [] := rfl
  have hlnil : laserIds ([] : List Laser) = [] := rfl
  have ha := Game.tick_anatomy env input ft g k
  simp only [] at ha
  set g1 := Game.cooldownStep ft (Game.fireStep env input
    (Game.moveShip env input ft g)) with hg1
  set sp := shipPassGo env ft g1.width g1.height g1.asteroids
    { done := [], player := g1.player, particles := g1.particles,
      death_timer := g1.death_timer, counter := g1.asteroid_counter,
      splits := [], removeA := [], k := k } with hsp
  set bp := bouncePass env sp.done sp.particles sp.k with hbp
  set lp := laserPassGo env ft g1.width g1.height g1.lasers
    { doneLasers := [], asts := bp.1, removeA := sp.removeA, removeL := [],
      splits := [], counter := sp.counter, score := g1.score,
      particles := bp.2.1, k := bp.2.2 } with hlp
  set flt := lp.asts.filter (fun a => decide (¬ a.id ∈ lp.removeA)) with hflt
  set gen := genCore env g1.width g1.height g1.center g1.max_asteroids
    (flt, lp.counter, lp.k) with hgen
  obtain ⟨hast, hlas, hcnt, hlcnt, -⟩ := ha
  have hg1A : g1.asteroids = g.asteroids := by
    rw [hg1, (Game.cooldownStep_frame ft _).2.2.2.1,
      (Game.fireStep_frame2 env input _).1,
      (Game.moveShip_frame env input ft g).2.2.2.1]
  have hg1C : g1.asteroid_counter = g.asteroid_counter := by
    rw [hg1, (Game.cooldownStep_frame ft _).2.2.2.2.1,
      (Game.fireStep_frame2 env input _).2.1,
      (Game.moveShip_frame env input ft g).2.2.2.2.1]
  have hg1L : (laserIds g1.lasers = laserIds g.lasers
        ∧ g1.laser_counter = g.laser_counter)
      ∨ (laserIds g1.lasers = laserIds g.lasers ++ [g.laser_counter + 1]
        ∧ g1.laser_counter = g.laser_counter + 1) := by
    have hm := Game.moveShip_frame env input ft g
    have hc := Game.cooldownStep_frame ft (Game.fireStep env input
      (Game.moveShip env input ft g))
    rcases Game.fireStep_cases env input (Game.moveShip env input ft g) with
      hf | ⟨hfl, hfc⟩
    · left
      constructor
      · rw [hg1, hc.1, hf, hm.1]
      · rw [hg1, hc.2.1, hf, hm.2.1]
    · right
      constructor
      · rw [hg1, hc.1, hfl, hm.1, hm.2.1]
      · rw [hg1, hc.2.1, hfc, hm.2.1]
  have hspec := shipPassGo_spec env ft g1.width g1.height g1.asteroids
    { done := [], player := g1.player, particles := g1.particles,
      death_timer := g1.death_timer, counter := g1.asteroid_counter,
      splits := [], removeA := [], k := k }
  rw [← hsp] at hspec
  dsimp only at hspec
  obtain ⟨sd, sm, ss⟩ := hspec
  rw [hanil, List.nil_append] at sd
  rw [hanil, List.nil_append] at ss
  rw [hg1C] at sm
  rw [hg1C] at ss
  have hbpids : asteroidIds bp.1 = asteroidIds sp.done := by
    rw [hbp]
    exact bouncePass_ids env sp.done sp.particles sp.k
  have hlspec := laserPassGo_spec env ft g1.width g1.height g1.lasers
    { doneLasers := [], asts := bp.1, removeA := sp.removeA, removeL := [],
      splits := [], counter := sp.counter, score := g1.score,
      particles := bp.2.1, k := bp.2.2 }
  rw [← hlp] at hlspec
  dsimp only at hlspec
  obtain ⟨ld, lm, lsp⟩ := hlspec
  rw [hanil, List.nil_append] at lsp
  have hdone := laserPassGo_done env ft g1.width g1.height g1.lasers
    { doneLasers := [], asts := bp.1, removeA := sp.removeA, removeL := [],
      splits := [], counter := sp.counter, score := g1.score,
      particles := bp.2.1, k := bp.2.2 }
  rw [← hlp] at hdone
  dsimp only at hdone
  rw [hlnil, List.nil_append] at hdone
  have hgspec := genCore_spec env g1.width g1.height g1.center
    g1.max_asteroids (flt, lp.counter, lp.k)
  rw [← hgen] at hgspec
  dsimp only at hgspec
  obtain ⟨gm, -, -, gids⟩ := hgspec
  have hfl2 : asteroidIds flt
      = (asteroidIds lp.asts).filter (fun i => decide (¬ i ∈ lp.removeA)) := by
    rw [hflt]
    exact asteroidIds_filter lp.removeA lp.asts
  have hflA : asteroidIds lp.asts = asteroidIds g.asteroids := by
    rw [ld, hbpids, sd, hg1A]
  have hFsub : ∀ i ∈ (asteroidIds g.asteroids).filter
      (fun i => decide (¬ i ∈ lp.removeA)), i ≤ g.asteroid_counter := by
    intro i hi
    exact hAc i (List.mem_of_mem_filter hi)
  have hFnd : ((asteroidIds g.asteroids).filter
      (fun i => decide (¬ i ∈ lp.removeA))).Nodup := hA.filter _
  have hB : ∀ i ∈ List.range' (lp.counter + 1) (gen.2.1 - lp.counter),
      lp.counter < i ∧ i ≤ gen.2.1 := by
    intro i hi
    rw [List.mem_range'_1] at hi
    omega
  have hC : ∀ i ∈ List.range' (sp.counter + 1) (lp.counter - sp.counter),
      sp.counter < i ∧ i ≤ lp.counter := by
    intro i hi
    rw [List.mem_range'_1] at hi
    omega
  have hD : ∀ i ∈ List.range' (g.asteroid_counter + 1)
      (sp.counter - g.asteroid_counter),
      g.asteroid_counter < i ∧ i ≤ sp.counter := by
    intro i hi
    rw [List.mem_range'_1] at hi
    omega
  refine ⟨?_, ?_, ?_, ?_⟩
  · rw [hast, asteroidIds_append, asteroidIds_append, gids, hfl2, hflA,
      lsp, ss]
    refine List.Nodup.append (List.Nodup.append
      (List.Nodup.append hFnd (List.nodup_range' _ _) ?_)
      (List.nodup_range' _ _) ?_) (List.nodup_range' _ _) ?_
    · intro i hiF hiB
      have h1 := hFsub i hiF
      have h2 := hB i hiB
      omega
    · intro i hi hiC
      have h2 := hC i hiC
      rcases List.mem_append.mp hi with h | h
      · have h1 := hFsub i h
        omega
      · have h1 := hB i h
        omega
    · intro i hi hiD
      have h2 := hD i hiD
      rcases List.mem_append.mp hi with h | h
      · rcases List.mem_append.mp h with h3 | h3
        · have h1 := hFsub i h3
          omega
        · have h1 := hB i h3
          omega
      · have h1 := hC i h
        omega
  · rw [hlas, laserIds_filter, hdone]
    rcases hg1L with ⟨he, -⟩ | ⟨he, -⟩
    · rw [he]
      exact hL.filter _
    · rw [he]
      refine List.Nodup.filter _ (List.Nodup.append hL
        (List.nodup_singleton _) ?_)
      intro i hiL hiS
      rw [List.mem_singleton] at hiS
      have := hLc i hiL
      omega
  · rw [hast, hcnt, asteroidIds_append, asteroidIds_append, gids, hfl2,
      hflA, lsp, ss]
    intro i hi
    rcases List.mem_append.mp hi with h | h
    · rcases List.mem_append.mp h with h3 | h3
      · rcases List.mem_append.mp h3 with h4 | h4
        · have h1 := hFsub i h4
          omega
        · have h1 := hB i h4
          omega
      · have h1 := hC i h3
        omega
    · have h1 := hD i h
      omega
  · rw [hlas, hlcnt, laserIds_filter, hdone]
    intro i hi
    have hi2 := List.mem_of_mem_filter hi
    rcases hg1L with ⟨he, hec⟩ | ⟨he, hec⟩
    · rw [he] at hi2
      have := hLc i hi2
      omega
    · rw [he] at hi2
      rcases List.mem_append.mp hi2 with h | h
      · have := hLc i h
        omega
      · rw [List.mem_singleton] at h
        omega

/-- Witness for C6: from an empty session with zeroed counters, one tick
yields duplicate-free asteroid and laser ids, all dominated by the
counters. -/
theorem C6_id_uniqueness_witness :
    (asteroidIds (Game.tick env0 input0 1 (gW, 0)).1.asteroids).Nodup
    ∧ (laserIds (Game.tick env0 input0 1 (gW, 0)).1.lasers).Nodup
    ∧ (∀ i ∈ asteroidIds (Game.tick env0 input0 1 (gW, 0)).1.asteroids,
        i ≤ (Game.tick env0 input0 1 (gW, 0)).1.asteroid_counter)
    ∧ (∀ i ∈ laserIds (Game.tick env0 input0 1 (gW, 0)).1.lasers,
        i ≤ (Game.tick env0 input0 1 (gW, 0)).1.laser_counter) :=
  C6_id_uniqueness env0 input0 1 gW 0 (by with_unfolding_all decide)
    (by with_unfolding_all decide) (by with_unfolding_all decide)
    (by with_unfolding_all decide)

/-- Counterexample to the unconditional C6: an asteroid whose id (1)
already exceeds the asteroid counter (0) — a state the allocator itself
never produces, which is why the amended claim assumes counter
dominance — has duplicate-free ids before the tick, yet after one tick in
which the ship-collision split fires the ids are 1, 1, 2, 3, 4. -/
theorem C6_counterexample :
    (asteroidIds gC6.asteroids).Nodup
    ∧ (laserIds gC6.lasers).Nodup
    ∧ ¬ (asteroidIds (Game.tick env1 input0 1 (gC6, 0)).1.asteroids).Nodup := by
  with_unfolding_all decide
